import Mathlib

/-!
Verification development for the distributed 3D heat-equation solver
(src/HeatEquation3D/src/heat3D.cpp).  The per-process state and the body of
the main time loop are shallowly embedded: the scalar field is a total
function on local indices with exact rational values, the six neighbour
links of the cartesian topology are booleans on a configuration record, and
the halo data received from neighbours is a parameter of the step.  Each
sequential in-place assignment block of the loop body becomes a function
transformer, and the transformers are composed in exactly the order the
source executes them.
-/

/-- Local scalar field of one process: value at local cell (i, j, k).
Mirrors the nested vector `T` (resp. `T0`) of heat3D.cpp; floating-point
values are embedded as exact rationals. -/
def Fld : Type := Nat → Nat → Nat → ℚ

/-- Per-process configuration fixed before the time loop: the local chunk
sizes `chunck[X]`, `chunck[Y]`, `chunck[Z]` (heat3D.cpp:327-331), whether a
real neighbour exists in each of the six directions (`neighbors[d] !=
MPI_PROC_NULL`, heat3D.cpp:184-186), and the diffusion coefficients
`Dx`, `Dy`, `Dz` (heat3D.cpp:306-308). -/
structure Cfg where
  chX : Nat
  chY : Nat
  chZ : Nat
  nbL : Bool
  nbR : Bool
  nbB : Bool
  nbT : Bool
  nbBa : Bool
  nbF : Bool
  Dx : ℚ
  Dy : ℚ
  Dz : ℚ

/-- Halo data received from the six neighbours in one iteration.  The flat
receive buffer `receiveBuffer[d][counter]` of heat3D.cpp is indexed here
directly by the two transverse coordinates that the counter enumerates
(outer coordinate first), matching the pack/unpack order of the source. -/
structure Halos where
  left : Nat → Nat → ℚ
  right : Nat → Nat → ℚ
  bottom : Nat → Nat → ℚ
  top : Nat → Nat → ℚ
  back : Nat → Nat → ℚ
  front : Nat → Nat → ℚ

/-- Field that is zero everywhere: the initialisation loop of
heat3D.cpp:353-356. -/
def zeroFld : Fld := fun _ _ _ => 0

/-- Linear ramp value used by the boundary conditions on the left, right,
back and front faces: `(coordinates3D[Y] * (chunck[Y]-1) + j) * spacing[Y]`
(heat3D.cpp:374,383,392,401). -/
def ramp (c : Cfg) (cy : Nat) (sY : ℚ) (j : Nat) : ℚ :=
  ((cy * (c.chY - 1) + j : Nat) : ℚ) * sY

/-- Boundary condition on the top face (heat3D.cpp:361-365): if no top
neighbour exists, `T[i][chunck[Y]-1][k] = 1.0` for all i, k. -/
def bcTop (c : Cfg) (T : Fld) : Fld := fun i j k =>
  if c.nbT = false ∧ (j = c.chY - 1 ∧ i < c.chX ∧ k < c.chZ) then 1
  else T i j k

/-- Boundary condition on the left face (heat3D.cpp:370-374): if no left
neighbour exists, `T[0][j][k]` is set to the ramp value. -/
def bcLeft (c : Cfg) (cy : Nat) (sY : ℚ) (T : Fld) : Fld := fun i j k =>
  if c.nbL = false ∧ (i = 0 ∧ j < c.chY ∧ k < c.chZ) then ramp c cy sY j
  else T i j k

/-- Boundary condition on the right face (heat3D.cpp:379-383): if no right
neighbour exists, `T[chunck[X]-1][j][k]` is set to the ramp value. -/
def bcRight (c : Cfg) (cy : Nat) (sY : ℚ) (T : Fld) : Fld := fun i j k =>
  if c.nbR = false ∧ (i = c.chX - 1 ∧ j < c.chY ∧ k < c.chZ) then ramp c cy sY j
  else T i j k

/-- Boundary condition on the back face (heat3D.cpp:388-392): if no back
neighbour exists, `T[i][j][0]` is set to the ramp value. -/
def bcBack (c : Cfg) (cy : Nat) (sY : ℚ) (T : Fld) : Fld := fun i j k =>
  if c.nbBa = false ∧ (k = 0 ∧ i < c.chX ∧ j < c.chY) then ramp c cy sY j
  else T i j k

/-- Boundary condition on the front face (heat3D.cpp:397-401): if no front
neighbour exists, `T[i][j][chunck[Z]-1]` is set to the ramp value. -/
def bcFront (c : Cfg) (cy : Nat) (sY : ℚ) (T : Fld) : Fld := fun i j k =>
  if c.nbF = false ∧ (k = c.chZ - 1 ∧ i < c.chX ∧ j < c.chY) then ramp c cy sY j
  else T i j k

/-- Initial field before the time loop: zero everywhere, then the boundary
conditions applied in source order (top, left, right, back, front;
heat3D.cpp:353-401).  A later assignment overwrites an earlier one on
shared edges, which the composition order reproduces. -/
def initField (c : Cfg) (cy : Nat) (sY : ℚ) : Fld :=
  bcFront c cy sY (bcBack c cy sY (bcRight c cy sY (bcLeft c cy sY (bcTop c zeroFld))))

/-- Face update next to the left neighbour (heat3D.cpp:656-668): stencil on
the i = 0 plane with the x-minus term taken from the received halo. -/
def faceLeft (c : Cfg) (halo : Nat → Nat → ℚ) (T0 T : Fld) : Fld := fun i j k =>
  if c.nbL = true ∧ (i = 0 ∧ 1 ≤ j ∧ j < c.chY - 1 ∧ 1 ≤ k ∧ k < c.chZ - 1) then
    T0 i j k + c.Dx * (T0 (i + 1) j k - 2 * T0 i j k + halo j k)
      + c.Dy * (T0 i (j + 1) k - 2 * T0 i j k + T0 i (j - 1) k)
      + c.Dz * (T0 i j (k + 1) - 2 * T0 i j k + T0 i j (k - 1))
  else T i j k

/-- Face update next to the right neighbour (heat3D.cpp:673-685): stencil on
the i = chunck[X]-1 plane with the x-plus term from the halo. -/
def faceRight (c : Cfg) (halo : Nat → Nat → ℚ) (T0 T : Fld) : Fld := fun i j k =>
  if c.nbR = true ∧ (i = c.chX - 1 ∧ 1 ≤ j ∧ j < c.chY - 1 ∧ 1 ≤ k ∧ k < c.chZ - 1) then
    T0 i j k + c.Dx * (halo j k - 2 * T0 i j k + T0 (i - 1) j k)
      + c.Dy * (T0 i (j + 1) k - 2 * T0 i j k + T0 i (j - 1) k)
      + c.Dz * (T0 i j (k + 1) - 2 * T0 i j k + T0 i j (k - 1))
  else T i j k

/-- Face update next to the bottom neighbour (heat3D.cpp:689-701): stencil
on the j = 0 plane with the y-minus term from the halo. -/
def faceBottom (c : Cfg) (halo : Nat → Nat → ℚ) (T0 T : Fld) : Fld := fun i j k =>
  if c.nbB = true ∧ (j = 0 ∧ 1 ≤ i ∧ i < c.chX - 1 ∧ 1 ≤ k ∧ k < c.chZ - 1) then
    T0 i j k + c.Dx * (T0 (i + 1) j k - 2 * T0 i j k + T0 (i - 1) j k)
      + c.Dy * (T0 i (j + 1) k - 2 * T0 i j k + halo i k)
      + c.Dz * (T0 i j (k + 1) - 2 * T0 i j k + T0 i j (k - 1))
  else T i j k

/-- Face update next to the top neighbour (heat3D.cpp:705-717): stencil on
the j = chunck[Y]-1 plane with the y-plus term from the halo. -/
def faceTop (c : Cfg) (halo : Nat → Nat → ℚ) (T0 T : Fld) : Fld := fun i j k =>
  if c.nbT = true ∧ (j = c.chY - 1 ∧ 1 ≤ i ∧ i < c.chX - 1 ∧ 1 ≤ k ∧ k < c.chZ - 1) then
    T0 i j k + c.Dx * (T0 (i + 1) j k - 2 * T0 i j k + T0 (i - 1) j k)
      + c.Dy * (halo i k - 2 * T0 i j k + T0 i (j - 1) k)
      + c.Dz * (T0 i j (k + 1) - 2 * T0 i j k + T0 i j (k - 1))
  else T i j k

/-- Face update next to the back neighbour (heat3D.cpp:721-733): stencil on
the k = 0 plane with the z-minus term from the halo. -/
def faceBack (c : Cfg) (halo : Nat → Nat → ℚ) (T0 T : Fld) : Fld := fun i j k =>
  if c.nbBa = true ∧ (k = 0 ∧ 1 ≤ i ∧ i < c.chX - 1 ∧ 1 ≤ j ∧ j < c.chY - 1) then
    T0 i j k + c.Dx * (T0 (i + 1) j k - 2 * T0 i j k + T0 (i - 1) j k)
      + c.Dy * (T0 i (j + 1) k - 2 * T0 i j k + T0 i (j - 1) k)
      + c.Dz * (T0 i j (k + 1) - 2 * T0 i j k + halo i j)
  else T i j k

/-- Face update next to the front neighbour (heat3D.cpp:737-749): stencil on
the k = chunck[Z]-1 plane with the z-plus term from the halo. -/
def faceFront (c : Cfg) (halo : Nat → Nat → ℚ) (T0 T : Fld) : Fld := fun i j k =>
  if c.nbF = true ∧ (k = c.chZ - 1 ∧ 1 ≤ i ∧ i < c.chX - 1 ∧ 1 ≤ j ∧ j < c.chY - 1) then
    T0 i j k + c.Dx * (T0 (i + 1) j k - 2 * T0 i j k + T0 (i - 1) j k)
      + c.Dy * (T0 i (j + 1) k - 2 * T0 i j k + T0 i (j - 1) k)
      + c.Dz * (halo i j - 2 * T0 i j k + T0 i j (k - 1))
  else T i j k

/-- All six face updates of one iteration, applied in source order
(left, right, bottom, top, back, front; heat3D.cpp:656-749).  Every face
update reads only the previous-level copy `T0` and the received halos. -/
def afterFaces (c : Cfg) (h : Halos) (T0 T : Fld) : Fld :=
  faceFront c h.front T0 (faceBack c h.back T0 (faceTop c h.top T0
    (faceBottom c h.bottom T0 (faceRight c h.right T0 (faceLeft c h.left T0 T)))))

/-- Edge extrapolation at the left-bottom edge (heat3D.cpp:758-763):
`T[0][0][k] = 2*T[1][0][k] - T[2][0][k]`. -/
def edgeLeftBottom (c : Cfg) (T : Fld) : Fld := fun i j k =>
  if (c.nbL = true ∧ c.nbB = true) ∧ (i = 0 ∧ j = 0 ∧ 1 ≤ k ∧ k < c.chZ - 1) then
    2 * T (i + 1) j k - T (i + 2) j k
  else T i j k

/-- Edge extrapolation at the left-top edge (heat3D.cpp:764-769). -/
def edgeLeftTop (c : Cfg) (T : Fld) : Fld := fun i j k =>
  if (c.nbL = true ∧ c.nbT = true) ∧ (i = 0 ∧ j = c.chY - 1 ∧ 1 ≤ k ∧ k < c.chZ - 1) then
    2 * T (i + 1) j k - T (i + 2) j k
  else T i j k

/-- Edge extrapolation at the left-back edge (heat3D.cpp:770-775). -/
def edgeLeftBack (c : Cfg) (T : Fld) : Fld := fun i j k =>
  if (c.nbL = true ∧ c.nbBa = true) ∧ (i = 0 ∧ k = 0 ∧ 1 ≤ j ∧ j < c.chY - 1) then
    2 * T (i + 1) j k - T (i + 2) j k
  else T i j k

/-- Edge extrapolation at the left-front edge (heat3D.cpp:776-781). -/
def edgeLeftFront (c : Cfg) (T : Fld) : Fld := fun i j k =>
  if (c.nbL = true ∧ c.nbF = true) ∧ (i = 0 ∧ k = c.chZ - 1 ∧ 1 ≤ j ∧ j < c.chY - 1) then
    2 * T (i + 1) j k - T (i + 2) j k
  else T i j k

/-- Edge extrapolation at the right-bottom edge (heat3D.cpp:785-790):
`T[chX-1][0][k] = 2*T[chX-2][0][k] - T[chX-3][0][k]`. -/
def edgeRightBottom (c : Cfg) (T : Fld) : Fld := fun i j k =>
  if (c.nbR = true ∧ c.nbB = true) ∧ (i = c.chX - 1 ∧ j = 0 ∧ 1 ≤ k ∧ k < c.chZ - 1) then
    2 * T (i - 1) j k - T (i - 2) j k
  else T i j k

/-- Edge extrapolation at the right-top edge (heat3D.cpp:791-796). -/
def edgeRightTop (c : Cfg) (T : Fld) : Fld := fun i j k =>
  if (c.nbR = true ∧ c.nbT = true) ∧ (i = c.chX - 1 ∧ j = c.chY - 1 ∧ 1 ≤ k ∧ k < c.chZ - 1) then
    2 * T (i - 1) j k - T (i - 2) j k
  else T i j k

/-- Edge extrapolation at the right-back edge (heat3D.cpp:797-802). -/
def edgeRightBack (c : Cfg) (T : Fld) : Fld := fun i j k =>
  if (c.nbR = true ∧ c.nbBa = true) ∧ (i = c.chX - 1 ∧ k = 0 ∧ 1 ≤ j ∧ j < c.chY - 1) then
    2 * T (i - 1) j k - T (i - 2) j k
  else T i j k

/-- Edge extrapolation at the right-front edge (heat3D.cpp:803-808). -/
def edgeRightFront (c : Cfg) (T : Fld) : Fld := fun i j k =>
  if (c.nbR = true ∧ c.nbF = true) ∧ (i = c.chX - 1 ∧ k = c.chZ - 1 ∧ 1 ≤ j ∧ j < c.chY - 1) then
    2 * T (i - 1) j k - T (i - 2) j k
  else T i j k

/-- Edge extrapolation at the back-bottom edge (heat3D.cpp:812-817):
`T[i][0][0] = 2*T[i][0][1] - T[i][0][2]`. -/
def edgeBackBottom (c : Cfg) (T : Fld) : Fld := fun i j k =>
  if (c.nbBa = true ∧ c.nbB = true) ∧ (j = 0 ∧ k = 0 ∧ 1 ≤ i ∧ i < c.chX - 1) then
    2 * T i j (k + 1) - T i j (k + 2)
  else T i j k

/-- Edge extrapolation at the back-top edge (heat3D.cpp:818-823). -/
def edgeBackTop (c : Cfg) (T : Fld) : Fld := fun i j k =>
  if (c.nbBa = true ∧ c.nbT = true) ∧ (j = c.chY - 1 ∧ k = 0 ∧ 1 ≤ i ∧ i < c.chX - 1) then
    2 * T i j (k + 1) - T i j (k + 2)
  else T i j k

/-- Edge extrapolation at the front-bottom edge (heat3D.cpp:827-832):
`T[i][0][chZ-1] = 2*T[i][0][chZ-2] - T[i][0][chZ-3]`. -/
def edgeFrontBottom (c : Cfg) (T : Fld) : Fld := fun i j k =>
  if (c.nbF = true ∧ c.nbB = true) ∧ (j = 0 ∧ k = c.chZ - 1 ∧ 1 ≤ i ∧ i < c.chX - 1) then
    2 * T i j (k - 1) - T i j (k - 2)
  else T i j k

/-- Edge extrapolation at the front-top edge (heat3D.cpp:833-838). -/
def edgeFrontTop (c : Cfg) (T : Fld) : Fld := fun i j k =>
  if (c.nbF = true ∧ c.nbT = true) ∧ (j = c.chY - 1 ∧ k = c.chZ - 1 ∧ 1 ≤ i ∧ i < c.chX - 1) then
    2 * T i j (k - 1) - T i j (k - 2)
  else T i j k

/-- All twelve edge extrapolations of one iteration, in source order
(heat3D.cpp:757-839). -/
def afterEdges (c : Cfg) (T : Fld) : Fld :=
  edgeFrontTop c (edgeFrontBottom c (edgeBackTop c (edgeBackBottom c
    (edgeRightFront c (edgeRightBack c (edgeRightTop c (edgeRightBottom c
      (edgeLeftFront c (edgeLeftBack c (edgeLeftTop c (edgeLeftBottom c T)))))))))))

/-- Corner average at (0,0,0) (heat3D.cpp:845-851). -/
def cornerLBBa (c : Cfg) (T : Fld) : Fld := fun i j k =>
  if (c.nbL = true ∧ c.nbB = true ∧ c.nbBa = true) ∧ (i = 0 ∧ j = 0 ∧ k = 0) then
    1 / 3 * (T (i + 1) j k + T i (j + 1) k + T i j (k + 1))
  else T i j k

/-- Corner average at (0,0,chZ-1) (heat3D.cpp:853-859). -/
def cornerLBF (c : Cfg) (T : Fld) : Fld := fun i j k =>
  if (c.nbL = true ∧ c.nbB = true ∧ c.nbF = true) ∧ (i = 0 ∧ j = 0 ∧ k = c.chZ - 1) then
    1 / 3 * (T (i + 1) j k + T i (j + 1) k + T i j (k - 1))
  else T i j k

/-- Corner average at (0,chY-1,0) (heat3D.cpp:861-867). -/
def cornerLTBa (c : Cfg) (T : Fld) : Fld := fun i j k =>
  if (c.nbL = true ∧ c.nbT = true ∧ c.nbBa = true) ∧ (i = 0 ∧ j = c.chY - 1 ∧ k = 0) then
    1 / 3 * (T (i + 1) j k + T i (j - 1) k + T i j (k + 1))
  else T i j k

/-- Corner average at (0,chY-1,chZ-1) (heat3D.cpp:869-875). -/
def cornerLTF (c : Cfg) (T : Fld) : Fld := fun i j k =>
  if (c.nbL = true ∧ c.nbT = true ∧ c.nbF = true) ∧ (i = 0 ∧ j = c.chY - 1 ∧ k = c.chZ - 1) then
    1 / 3 * (T (i + 1) j k + T i (j - 1) k + T i j (k - 1))
  else T i j k

/-- Corner average at (chX-1,0,0) (heat3D.cpp:877-883). -/
def cornerRBBa (c : Cfg) (T : Fld) : Fld := fun i j k =>
  if (c.nbR = true ∧ c.nbB = true ∧ c.nbBa = true) ∧ (i = c.chX - 1 ∧ j = 0 ∧ k = 0) then
    1 / 3 * (T (i - 1) j k + T i (j + 1) k + T i j (k + 1))
  else T i j k

/-- Corner average at (chX-1,0,chZ-1) (heat3D.cpp:885-891). -/
def cornerRBF (c : Cfg) (T : Fld) : Fld := fun i j k =>
  if (c.nbR = true ∧ c.nbB = true ∧ c.nbF = true) ∧ (i = c.chX - 1 ∧ j = 0 ∧ k = c.chZ - 1) then
    1 / 3 * (T (i - 1) j k + T i (j + 1) k + T i j (k - 1))
  else T i j k

/-- Corner average at (chX-1,chY-1,0) (heat3D.cpp:893-899). -/
def cornerRTBa (c : Cfg) (T : Fld) : Fld := fun i j k =>
  if (c.nbR = true ∧ c.nbT = true ∧ c.nbBa = true) ∧ (i = c.chX - 1 ∧ j = c.chY - 1 ∧ k = 0) then
    1 / 3 * (T (i - 1) j k + T i (j - 1) k + T i j (k + 1))
  else T i j k

/-- Corner average at (chX-1,chY-1,chZ-1) (heat3D.cpp:901-907). -/
def cornerRTF (c : Cfg) (T : Fld) : Fld := fun i j k =>
  if (c.nbR = true ∧ c.nbT = true ∧ c.nbF = true) ∧ (i = c.chX - 1 ∧ j = c.chY - 1 ∧ k = c.chZ - 1) then
    1 / 3 * (T (i - 1) j k + T i (j - 1) k + T i j (k - 1))
  else T i j k

/-- All eight corner averages of one iteration, in source order
(heat3D.cpp:845-907). -/
def afterCorners (c : Cfg) (T : Fld) : Fld :=
  cornerRTF c (cornerRTBa c (cornerRBF c (cornerRBBa c
    (cornerLTF c (cornerLTBa c (cornerLBF c (cornerLBBa c T)))))))

/-- Field update of one full time-loop iteration (heat3D.cpp:497-907),
given the previous-level copy `T0` (the deep copy of T taken at the start
of the iteration), the received halos, and the current field `T`: the six
face updates, then the twelve edge extrapolations, then the eight corner
averages.  The empty GPU placeholder region that precedes the face updates
(heat3D.cpp:606-614) contributes nothing: no strictly interior cell is
written. -/
def stepField (c : Cfg) (h : Halos) (T0 T : Fld) : Fld :=
  afterCorners c (afterEdges c (afterFaces c h T0 T))

/-- The first n iterations of the time loop acting on the field, with `hs m`
the halos received during iteration m.  Each iteration first takes the deep
copy `T0 := T` (heat3D.cpp:502-505) and then applies the field update to
it. -/
def iterRun (c : Cfg) (hs : Nat → Halos) : Nat → Fld → Fld
  | 0, T => T
  | n + 1, T => stepField c (hs n) (iterRun c hs n T) (iterRun c hs n T)

/-- Interior-cell update formula that the specification states for every
strictly interior cell; a refinement comparison point, written from the
spec sentence "T[i,j,k] = T0[i,j,k] + Dx*(T0[i+1,j,k] - 2*T0[i,j,k] +
T0[i-1,j,k]) + Dy*(...) + Dz*(...)". -/
def stencilSpec (Dx Dy Dz : ℚ) (T0 : Fld) (i j k : Nat) : ℚ :=
  T0 i j k + Dx * (T0 (i + 1) j k - 2 * T0 i j k + T0 (i - 1) j k)
    + Dy * (T0 i (j + 1) k - 2 * T0 i j k + T0 i (j - 1) k)
    + Dz * (T0 i j (k + 1) - 2 * T0 i j k + T0 i j (k - 1))

/-- Smallest positive normalised double, `std::numeric_limits<double>::min()`
= 2^-1022, the initial value of the residual accumulator (heat3D.cpp:915). -/
def dblMin : ℚ := 1 / 2 ^ 1022

/-- Strictly interior local cells in the loop order of the residual
computation (heat3D.cpp:916-918): i, j, k each ranging over
1, ..., chunck-2. -/
def interiorTriples (c : Cfg) : List (Nat × Nat × Nat) :=
  (List.range' 1 (c.chX - 2)).flatMap fun i =>
    (List.range' 1 (c.chY - 2)).flatMap fun j =>
      (List.range' 1 (c.chZ - 2)).map fun k => (i, j, k)

/-- Local residual of one iteration (heat3D.cpp:915-920): starting from
`std::numeric_limits<double>::min()`, take the maximum of
`fabs(T[i][j][k] - T0[i][j][k])` over the strictly interior cells. -/
def resid (c : Cfg) (T T0 : Fld) : ℚ :=
  (interiorTriples c).foldl
    (fun acc p =>
      if |T p.1 p.2.1 p.2.2 - T0 p.1 p.2.1 p.2.2| > acc then
        |T p.1 p.2.1 p.2.2 - T0 p.1 p.2.1 p.2.2|
      else acc)
    dblMin

/-- Norm update at iteration 0 (heat3D.cpp:926-928): `norm` starts at 1.0
and is overwritten with the iteration-0 residual unless that residual is
exactly zero. -/
def normAfter0 (res : ℚ) : ℚ := if res ≠ 0 then res else 1

/-- Local break condition update of one iteration (heat3D.cpp:951-952): the
flag is set when `res / norm < eps` and is never reset. -/
def localBreakAfter (brk : Bool) (res norm eps : ℚ) : Bool :=
  if res / norm < eps then true else brk

/-- Globally reduced break condition (heat3D.cpp:958-959):
`MPI_Iallreduce(..., MPI_MAX, ...)` over every process's local break flag,
with the identical result delivered to all processes. -/
def globalBreakCondition (bs : List Bool) : Bool :=
  bs.foldl (fun a b => max a b) false

/-- Globally reduced normalisation factor (heat3D.cpp:933-936):
`MPI_Iallreduce(..., MPI_MIN, ...)` over every process's local `norm`.
There is always at least one process; the empty case is unreachable. -/
def listMin : List ℚ → ℚ
  | [] => 1
  | x :: xs => xs.foldl min x

/-- Divisibility check of one axis (heat3D.cpp:317-322): the `assert`
aborts setup when `(numCells - 1) % dimension3D != 0`. -/
def checkDivisible (num dim : Nat) : Option Unit :=
  if (num - 1) % dim = 0 then some () else none

/-- Setup of the local partition (heat3D.cpp:317-331): the three axis
asserts run in order, and only if all pass is the chunk computed as
`(numCells-1)/dimension3D + 1` per axis, to which the field is then
allocated (heat3D.cpp:340-349). -/
def setupPartition (nX nY nZ dX dY dZ : Nat) : Option (Nat × Nat × Nat) :=
  (checkDivisible nX dX).bind fun _ =>
    (checkDivisible nY dY).bind fun _ =>
      (checkDivisible nZ dZ).bind fun _ =>
        some ((nX - 1) / dX + 1, (nY - 1) / dY + 1, (nZ - 1) / dZ + 1)

/-- Send buffer towards the left neighbour (heat3D.cpp:522-525): the i = 1
layer of `T0`, transverse indices j then k each running from 1 to
chunck-2, inner index fastest. -/
def sendLeft (c : Cfg) (T0 : Fld) : List ℚ :=
  if c.nbL = true then
    (List.range' 1 (c.chY - 2)).flatMap fun j =>
      (List.range' 1 (c.chZ - 2)).map fun k => T0 1 j k
  else []

/-- Send buffer towards the right neighbour (heat3D.cpp:529-533): the
i = chunck[X]-2 layer of `T0`. -/
def sendRight (c : Cfg) (T0 : Fld) : List ℚ :=
  if c.nbR = true then
    (List.range' 1 (c.chY - 2)).flatMap fun j =>
      (List.range' 1 (c.chZ - 2)).map fun k => T0 (c.chX - 2) j k
  else []

/-- Send buffer towards the bottom neighbour (heat3D.cpp:537-541): the
j = 1 layer of `T0`, transverse indices i then k. -/
def sendBottom (c : Cfg) (T0 : Fld) : List ℚ :=
  if c.nbB = true then
    (List.range' 1 (c.chX - 2)).flatMap fun i =>
      (List.range' 1 (c.chZ - 2)).map fun k => T0 i 1 k
  else []

/-- Send buffer towards the top neighbour (heat3D.cpp:546-550): the
j = chunck[Y]-2 layer of `T0`. -/
def sendTop (c : Cfg) (T0 : Fld) : List ℚ :=
  if c.nbT = true then
    (List.range' 1 (c.chX - 2)).flatMap fun i =>
      (List.range' 1 (c.chZ - 2)).map fun k => T0 i (c.chY - 2) k
  else []

/-- Send buffer towards the back neighbour (heat3D.cpp:554-558): the k = 1
layer of `T0`, transverse indices i then j. -/
def sendBack (c : Cfg) (T0 : Fld) : List ℚ :=
  if c.nbBa = true then
    (List.range' 1 (c.chX - 2)).flatMap fun i =>
      (List.range' 1 (c.chY - 2)).map fun j => T0 i j 1
  else []

/-- Send buffer towards the front neighbour (heat3D.cpp:562-566): the
k = chunck[Z]-2 layer of `T0`. -/
def sendFront (c : Cfg) (T0 : Fld) : List ℚ :=
  if c.nbF = true then
    (List.range' 1 (c.chX - 2)).flatMap fun i =>
      (List.range' 1 (c.chY - 2)).map fun j => T0 i j (c.chZ - 2)
  else []

/-! Pointwise lemmas about the update transformers: each `..._skip` lemma
says the transformer leaves a cell alone when the cell is outside the
written range (whatever the neighbour flags are), and each `..._eq` lemma
gives the assigned value when the flags hold and the cell is in range. -/

theorem bcTop_skip (c : Cfg) (T : Fld) (i j k : Nat)
    (h : ¬(j = c.chY - 1 ∧ i < c.chX ∧ k < c.chZ)) :
    bcTop c T i j k = T i j k := by
  unfold bcTop; rw [if_neg fun hg => h hg.2]

theorem bcLeft_skip (c : Cfg) (cy : Nat) (sY : ℚ) (T : Fld) (i j k : Nat)
    (h : ¬(i = 0 ∧ j < c.chY ∧ k < c.chZ)) :
    bcLeft c cy sY T i j k = T i j k := by
  unfold bcLeft; rw [if_neg fun hg => h hg.2]

theorem bcRight_skip (c : Cfg) (cy : Nat) (sY : ℚ) (T : Fld) (i j k : Nat)
    (h : ¬(i = c.chX - 1 ∧ j < c.chY ∧ k < c.chZ)) :
    bcRight c cy sY T i j k = T i j k := by
  unfold bcRight; rw [if_neg fun hg => h hg.2]

theorem bcBack_skip (c : Cfg) (cy : Nat) (sY : ℚ) (T : Fld) (i j k : Nat)
    (h : ¬(k = 0 ∧ i < c.chX ∧ j < c.chY)) :
    bcBack c cy sY T i j k = T i j k := by
  unfold bcBack; rw [if_neg fun hg => h hg.2]

theorem bcFront_skip (c : Cfg) (cy : Nat) (sY : ℚ) (T : Fld) (i j k : Nat)
    (h : ¬(k = c.chZ - 1 ∧ i < c.chX ∧ j < c.chY)) :
    bcFront c cy sY T i j k = T i j k := by
  unfold bcFront; rw [if_neg fun hg => h hg.2]

theorem bcTop_eq (c : Cfg) (T : Fld) (i j k : Nat) (hf : c.nbT = false)
    (h : j = c.chY - 1 ∧ i < c.chX ∧ k < c.chZ) :
    bcTop c T i j k = 1 := by
  unfold bcTop; rw [if_pos ⟨hf, h⟩]

theorem bcLeft_eq (c : Cfg) (cy : Nat) (sY : ℚ) (T : Fld) (i j k : Nat)
    (hf : c.nbL = false) (h : i = 0 ∧ j < c.chY ∧ k < c.chZ) :
    bcLeft c cy sY T i j k = ramp c cy sY j := by
  unfold bcLeft; rw [if_pos ⟨hf, h⟩]

theorem bcRight_eq (c : Cfg) (cy : Nat) (sY : ℚ) (T : Fld) (i j k : Nat)
    (hf : c.nbR = false) (h : i = c.chX - 1 ∧ j < c.chY ∧ k < c.chZ) :
    bcRight c cy sY T i j k = ramp c cy sY j := by
  unfold bcRight; rw [if_pos ⟨hf, h⟩]

theorem bcBack_eq (c : Cfg) (cy : Nat) (sY : ℚ) (T : Fld) (i j k : Nat)
    (hf : c.nbBa = false) (h : k = 0 ∧ i < c.chX ∧ j < c.chY) :
    bcBack c cy sY T i j k = ramp c cy sY j := by
  unfold bcBack; rw [if_pos ⟨hf, h⟩]

theorem bcFront_eq (c : Cfg) (cy : Nat) (sY : ℚ) (T : Fld) (i j k : Nat)
    (hf : c.nbF = false) (h : k = c.chZ - 1 ∧ i < c.chX ∧ j < c.chY) :
    bcFront c cy sY T i j k = ramp c cy sY j := by
  unfold bcFront; rw [if_pos ⟨hf, h⟩]

theorem faceLeft_skip (c : Cfg) (halo : Nat → Nat → ℚ) (T0 T : Fld) (i j k : Nat)
    (h : ¬(i = 0 ∧ 1 ≤ j ∧ j < c.chY - 1 ∧ 1 ≤ k ∧ k < c.chZ - 1)) :
    faceLeft c halo T0 T i j k = T i j k := by
  unfold faceLeft; rw [if_neg fun hg => h hg.2]

theorem faceRight_skip (c : Cfg) (halo : Nat → Nat → ℚ) (T0 T : Fld) (i j k : Nat)
    (h : ¬(i = c.chX - 1 ∧ 1 ≤ j ∧ j < c.chY - 1 ∧ 1 ≤ k ∧ k < c.chZ - 1)) :
    faceRight c halo T0 T i j k = T i j k := by
  unfold faceRight; rw [if_neg fun hg => h hg.2]

theorem faceBottom_skip (c : Cfg) (halo : Nat → Nat → ℚ) (T0 T : Fld) (i j k : Nat)
    (h : ¬(j = 0 ∧ 1 ≤ i ∧ i < c.chX - 1 ∧ 1 ≤ k ∧ k < c.chZ - 1)) :
    faceBottom c halo T0 T i j k = T i j k := by
  unfold faceBottom; rw [if_neg fun hg => h hg.2]

theorem faceTop_skip (c : Cfg) (halo : Nat → Nat → ℚ) (T0 T : Fld) (i j k : Nat)
    (h : ¬(j = c.chY - 1 ∧ 1 ≤ i ∧ i < c.chX - 1 ∧ 1 ≤ k ∧ k < c.chZ - 1)) :
    faceTop c halo T0 T i j k = T i j k := by
  unfold faceTop; rw [if_neg fun hg => h hg.2]

theorem faceBack_skip (c : Cfg) (halo : Nat → Nat → ℚ) (T0 T : Fld) (i j k : Nat)
    (h : ¬(k = 0 ∧ 1 ≤ i ∧ i < c.chX - 1 ∧ 1 ≤ j ∧ j < c.chY - 1)) :
    faceBack c halo T0 T i j k = T i j k := by
  unfold faceBack; rw [if_neg fun hg => h hg.2]

theorem faceFront_skip (c : Cfg) (halo : Nat → Nat → ℚ) (T0 T : Fld) (i j k : Nat)
    (h : ¬(k = c.chZ - 1 ∧ 1 ≤ i ∧ i < c.chX - 1 ∧ 1 ≤ j ∧ j < c.chY - 1)) :
    faceFront c halo T0 T i j k = T i j k := by
  unfold faceFront; rw [if_neg fun hg => h hg.2]

theorem edgeLeftBottom_skip (c : Cfg) (T : Fld) (i j k : Nat)
    (h : ¬(i = 0 ∧ j = 0 ∧ 1 ≤ k ∧ k < c.chZ - 1)) :
    edgeLeftBottom c T i j k = T i j k := by
  unfold edgeLeftBottom; rw [if_neg fun hg => h hg.2]

theorem edgeLeftTop_skip (c : Cfg) (T : Fld) (i j k : Nat)
    (h : ¬(i = 0 ∧ j = c.chY - 1 ∧ 1 ≤ k ∧ k < c.chZ - 1)) :
    edgeLeftTop c T i j k = T i j k := by
  unfold edgeLeftTop; rw [if_neg fun hg => h hg.2]

theorem edgeLeftBack_skip (c : Cfg) (T : Fld) (i j k : Nat)
    (h : ¬(i = 0 ∧ k = 0 ∧ 1 ≤ j ∧ j < c.chY - 1)) :
    edgeLeftBack c T i j k = T i j k := by
  unfold edgeLeftBack; rw [if_neg fun hg => h hg.2]

theorem edgeLeftFront_skip (c : Cfg) (T : Fld) (i j k : Nat)
    (h : ¬(i = 0 ∧ k = c.chZ - 1 ∧ 1 ≤ j ∧ j < c.chY - 1)) :
    edgeLeftFront c T i j k = T i j k := by
  unfold edgeLeftFront; rw [if_neg fun hg => h hg.2]

theorem edgeRightBottom_skip (c : Cfg) (T : Fld) (i j k : Nat)
    (h : ¬(i = c.chX - 1 ∧ j = 0 ∧ 1 ≤ k ∧ k < c.chZ - 1)) :
    edgeRightBottom c T i j k = T i j k := by
  unfold edgeRightBottom; rw [if_neg fun hg => h hg.2]

theorem edgeRightTop_skip (c : Cfg) (T : Fld) (i j k : Nat)
    (h : ¬(i = c.chX - 1 ∧ j = c.chY - 1 ∧ 1 ≤ k ∧ k < c.chZ - 1)) :
    edgeRightTop c T i j k = T i j k := by
  unfold edgeRightTop; rw [if_neg fun hg => h hg.2]

theorem edgeRightBack_skip (c : Cfg) (T : Fld) (i j k : Nat)
    (h : ¬(i = c.chX - 1 ∧ k = 0 ∧ 1 ≤ j ∧ j < c.chY - 1)) :
    edgeRightBack c T i j k = T i j k := by
  unfold edgeRightBack; rw [if_neg fun hg => h hg.2]

theorem edgeRightFront_skip (c : Cfg) (T : Fld) (i j k : Nat)
    (h : ¬(i = c.chX - 1 ∧ k = c.chZ - 1 ∧ 1 ≤ j ∧ j < c.chY - 1)) :
    edgeRightFront c T i j k = T i j k := by
  unfold edgeRightFront; rw [if_neg fun hg => h hg.2]

theorem edgeBackBottom_skip (c : Cfg) (T : Fld) (i j k : Nat)
    (h : ¬(j = 0 ∧ k = 0 ∧ 1 ≤ i ∧ i < c.chX - 1)) :
    edgeBackBottom c T i j k = T i j k := by
  unfold edgeBackBottom; rw [if_neg fun hg => h hg.2]

theorem edgeBackTop_skip (c : Cfg) (T : Fld) (i j k : Nat)
    (h : ¬(j = c.chY - 1 ∧ k = 0 ∧ 1 ≤ i ∧ i < c.chX - 1)) :
    edgeBackTop c T i j k = T i j k := by
  unfold edgeBackTop; rw [if_neg fun hg => h hg.2]

theorem edgeFrontBottom_skip (c : Cfg) (T : Fld) (i j k : Nat)
    (h : ¬(j = 0 ∧ k = c.chZ - 1 ∧ 1 ≤ i ∧ i < c.chX - 1)) :
    edgeFrontBottom c T i j k = T i j k := by
  unfold edgeFrontBottom; rw [if_neg fun hg => h hg.2]

theorem edgeFrontTop_skip (c : Cfg) (T : Fld) (i j k : Nat)
    (h : ¬(j = c.chY - 1 ∧ k = c.chZ - 1 ∧ 1 ≤ i ∧ i < c.chX - 1)) :
    edgeFrontTop c T i j k = T i j k := by
  unfold edgeFrontTop; rw [if_neg fun hg => h hg.2]

theorem cornerLBBa_skip (c : Cfg) (T : Fld) (i j k : Nat)
    (h : ¬(i = 0 ∧ j = 0 ∧ k = 0)) :
    cornerLBBa c T i j k = T i j k := by
  unfold cornerLBBa; rw [if_neg fun hg => h hg.2]

theorem cornerLBF_skip (c : Cfg) (T : Fld) (i j k : Nat)
    (h : ¬(i = 0 ∧ j = 0 ∧ k = c.chZ - 1)) :
    cornerLBF c T i j k = T i j k := by
  unfold cornerLBF; rw [if_neg fun hg => h hg.2]

theorem cornerLTBa_skip (c : Cfg) (T : Fld) (i j k : Nat)
    (h : ¬(i = 0 ∧ j = c.chY - 1 ∧ k = 0)) :
    cornerLTBa c T i j k = T i j k := by
  unfold cornerLTBa; rw [if_neg fun hg => h hg.2]

theorem cornerLTF_skip (c : Cfg) (T : Fld) (i j k : Nat)
    (h : ¬(i = 0 ∧ j = c.chY - 1 ∧ k = c.chZ - 1)) :
    cornerLTF c T i j k = T i j k := by
  unfold cornerLTF; rw [if_neg fun hg => h hg.2]

theorem cornerRBBa_skip (c : Cfg) (T : Fld) (i j k : Nat)
    (h : ¬(i = c.chX - 1 ∧ j = 0 ∧ k = 0)) :
    cornerRBBa c T i j k = T i j k := by
  unfold cornerRBBa; rw [if_neg fun hg => h hg.2]

theorem cornerRBF_skip (c : Cfg) (T : Fld) (i j k : Nat)
    (h : ¬(i = c.chX - 1 ∧ j = 0 ∧ k = c.chZ - 1)) :
    cornerRBF c T i j k = T i j k := by
  unfold cornerRBF; rw [if_neg fun hg => h hg.2]

theorem cornerRTBa_skip (c : Cfg) (T : Fld) (i j k : Nat)
    (h : ¬(i = c.chX - 1 ∧ j = c.chY - 1 ∧ k = 0)) :
    cornerRTBa c T i j k = T i j k := by
  unfold cornerRTBa; rw [if_neg fun hg => h hg.2]

theorem cornerRTF_skip (c : Cfg) (T : Fld) (i j k : Nat)
    (h : ¬(i = c.chX - 1 ∧ j = c.chY - 1 ∧ k = c.chZ - 1)) :
    cornerRTF c T i j k = T i j k := by
  unfold cornerRTF; rw [if_neg fun hg => h hg.2]
/-- Value produced at the left-bottom edge (0,0,k) by the edge-extrapolation pass. -/
theorem afterEdges_LB (c : Cfg) (T : Fld) (k : Nat)
    (hx : 4 ≤ c.chX) (hy : 4 ≤ c.chY) (hz : 4 ≤ c.chZ)
    (hf1 : c.nbL = true) (hf2 : c.nbB = true) (hr : 1 ≤ k ∧ k < c.chZ - 1) :
    afterEdges c T 0 0 k =
      2 * T 1 0 k - T 2 0 k := by
  unfold afterEdges
  rw [edgeFrontTop_skip c _ 0 0 k (by omega)]
  rw [edgeFrontBottom_skip c _ 0 0 k (by omega)]
  rw [edgeBackTop_skip c _ 0 0 k (by omega)]
  rw [edgeBackBottom_skip c _ 0 0 k (by omega)]
  rw [edgeRightFront_skip c _ 0 0 k (by omega)]
  rw [edgeRightBack_skip c _ 0 0 k (by omega)]
  rw [edgeRightTop_skip c _ 0 0 k (by omega)]
  rw [edgeRightBottom_skip c _ 0 0 k (by omega)]
  rw [edgeLeftFront_skip c _ 0 0 k (by omega)]
  rw [edgeLeftBack_skip c _ 0 0 k (by omega)]
  rw [edgeLeftTop_skip c _ 0 0 k (by omega)]
  unfold edgeLeftBottom
  rw [if_pos ⟨⟨hf1, hf2⟩, by omega⟩]
  try norm_num [Nat.sub_sub]

/-- Value produced at the left-top edge (0,chY-1,k) by the edge-extrapolation pass. -/
theorem afterEdges_LT (c : Cfg) (T : Fld) (k : Nat)
    (hx : 4 ≤ c.chX) (hy : 4 ≤ c.chY) (hz : 4 ≤ c.chZ)
    (hf1 : c.nbL = true) (hf2 : c.nbT = true) (hr : 1 ≤ k ∧ k < c.chZ - 1) :
    afterEdges c T 0 (c.chY - 1) k =
      2 * T 1 (c.chY - 1) k - T 2 (c.chY - 1) k := by
  unfold afterEdges
  rw [edgeFrontTop_skip c _ 0 (c.chY - 1) k (by omega)]
  rw [edgeFrontBottom_skip c _ 0 (c.chY - 1) k (by omega)]
  rw [edgeBackTop_skip c _ 0 (c.chY - 1) k (by omega)]
  rw [edgeBackBottom_skip c _ 0 (c.chY - 1) k (by omega)]
  rw [edgeRightFront_skip c _ 0 (c.chY - 1) k (by omega)]
  rw [edgeRightBack_skip c _ 0 (c.chY - 1) k (by omega)]
  rw [edgeRightTop_skip c _ 0 (c.chY - 1) k (by omega)]
  rw [edgeRightBottom_skip c _ 0 (c.chY - 1) k (by omega)]
  rw [edgeLeftFront_skip c _ 0 (c.chY - 1) k (by omega)]
  rw [edgeLeftBack_skip c _ 0 (c.chY - 1) k (by omega)]
  unfold edgeLeftTop
  rw [if_pos ⟨⟨hf1, hf2⟩, by omega⟩]
  try norm_num [Nat.sub_sub]
  try rw [edgeLeftBottom_skip c _ 1 (c.chY - 1) k (by omega)]
  try rw [edgeLeftBottom_skip c _ 2 (c.chY - 1) k (by omega)]

/-- Value produced at the left-back edge (0,j,0) by the edge-extrapolation pass. -/
theorem afterEdges_LBa (c : Cfg) (T : Fld) (j : Nat)
    (hx : 4 ≤ c.chX) (hy : 4 ≤ c.chY) (hz : 4 ≤ c.chZ)
    (hf1 : c.nbL = true) (hf2 : c.nbBa = true) (hr : 1 ≤ j ∧ j < c.chY - 1) :
    afterEdges c T 0 j 0 =
      2 * T 1 j 0 - T 2 j 0 := by
  unfold afterEdges
  rw [edgeFrontTop_skip c _ 0 j 0 (by omega)]
  rw [edgeFrontBottom_skip c _ 0 j 0 (by omega)]
  rw [edgeBackTop_skip c _ 0 j 0 (by omega)]
  rw [edgeBackBottom_skip c _ 0 j 0 (by omega)]
  rw [edgeRightFront_skip c _ 0 j 0 (by omega)]
  rw [edgeRightBack_skip c _ 0 j 0 (by omega)]
  rw [edgeRightTop_skip c _ 0 j 0 (by omega)]
  rw [edgeRightBottom_skip c _ 0 j 0 (by omega)]
  rw [edgeLeftFront_skip c _ 0 j 0 (by omega)]
  unfold edgeLeftBack
  rw [if_pos ⟨⟨hf1, hf2⟩, by omega⟩]
  try norm_num [Nat.sub_sub]
  try rw [edgeLeftTop_skip c _ 1 j 0 (by omega)]
  try rw [edgeLeftBottom_skip c _ 1 j 0 (by omega)]
  try rw [edgeLeftTop_skip c _ 2 j 0 (by omega)]
  try rw [edgeLeftBottom_skip c _ 2 j 0 (by omega)]

/-- Value produced at the left-front edge (0,j,chZ-1) by the edge-extrapolation pass. -/
theorem afterEdges_LF (c : Cfg) (T : Fld) (j : Nat)
    (hx : 4 ≤ c.chX) (hy : 4 ≤ c.chY) (hz : 4 ≤ c.chZ)
    (hf1 : c.nbL = true) (hf2 : c.nbF = true) (hr : 1 ≤ j ∧ j < c.chY - 1) :
    afterEdges c T 0 j (c.chZ - 1) =
      2 * T 1 j (c.chZ - 1) - T 2 j (c.chZ - 1) := by
  unfold afterEdges
  rw [edgeFrontTop_skip c _ 0 j (c.chZ - 1) (by omega)]
  rw [edgeFrontBottom_skip c _ 0 j (c.chZ - 1) (by omega)]
  rw [edgeBackTop_skip c _ 0 j (c.chZ - 1) (by omega)]
  rw [edgeBackBottom_skip c _ 0 j (c.chZ - 1) (by omega)]
  rw [edgeRightFront_skip c _ 0 j (c.chZ - 1) (by omega)]
  rw [edgeRightBack_skip c _ 0 j (c.chZ - 1) (by omega)]
  rw [edgeRightTop_skip c _ 0 j (c.chZ - 1) (by omega)]
  rw [edgeRightBottom_skip c _ 0 j (c.chZ - 1) (by omega)]
  unfold edgeLeftFront
  rw [if_pos ⟨⟨hf1, hf2⟩, by omega⟩]
  try norm_num [Nat.sub_sub]
  try rw [edgeLeftBack_skip c _ 1 j (c.chZ - 1) (by omega)]
  try rw [edgeLeftTop_skip c _ 1 j (c.chZ - 1) (by omega)]
  try rw [edgeLeftBottom_skip c _ 1 j (c.chZ - 1) (by omega)]
  try rw [edgeLeftBack_skip c _ 2 j (c.chZ - 1) (by omega)]
  try rw [edgeLeftTop_skip c _ 2 j (c.chZ - 1) (by omega)]
  try rw [edgeLeftBottom_skip c _ 2 j (c.chZ - 1) (by omega)]

/-- Value produced at the right-bottom edge (chX-1,0,k) by the edge-extrapolation pass. -/
theorem afterEdges_RB (c : Cfg) (T : Fld) (k : Nat)
    (hx : 4 ≤ c.chX) (hy : 4 ≤ c.chY) (hz : 4 ≤ c.chZ)
    (hf1 : c.nbR = true) (hf2 : c.nbB = true) (hr : 1 ≤ k ∧ k < c.chZ - 1) :
    afterEdges c T (c.chX - 1) 0 k =
      2 * T (c.chX - 2) 0 k - T (c.chX - 3) 0 k := by
  unfold afterEdges
  rw [edgeFrontTop_skip c _ (c.chX - 1) 0 k (by omega)]
  rw [edgeFrontBottom_skip c _ (c.chX - 1) 0 k (by omega)]
  rw [edgeBackTop_skip c _ (c.chX - 1) 0 k (by omega)]
  rw [edgeBackBottom_skip c _ (c.chX - 1) 0 k (by omega)]
  rw [edgeRightFront_skip c _ (c.chX - 1) 0 k (by omega)]
  rw [edgeRightBack_skip c _ (c.chX - 1) 0 k (by omega)]
  rw [edgeRightTop_skip c _ (c.chX - 1) 0 k (by omega)]
  unfold edgeRightBottom
  rw [if_pos ⟨⟨hf1, hf2⟩, by omega⟩]
  try norm_num [Nat.sub_sub]
  try rw [edgeLeftFront_skip c _ (c.chX - 2) 0 k (by omega)]
  try rw [edgeLeftBack_skip c _ (c.chX - 2) 0 k (by omega)]
  try rw [edgeLeftTop_skip c _ (c.chX - 2) 0 k (by omega)]
  try rw [edgeLeftBottom_skip c _ (c.chX - 2) 0 k (by omega)]
  try rw [edgeLeftFront_skip c _ (c.chX - 3) 0 k (by omega)]
  try rw [edgeLeftBack_skip c _ (c.chX - 3) 0 k (by omega)]
  try rw [edgeLeftTop_skip c _ (c.chX - 3) 0 k (by omega)]
  try rw [edgeLeftBottom_skip c _ (c.chX - 3) 0 k (by omega)]

/-- Value produced at the right-top edge (chX-1,chY-1,k) by the edge-extrapolation pass. -/
theorem afterEdges_RT (c : Cfg) (T : Fld) (k : Nat)
    (hx : 4 ≤ c.chX) (hy : 4 ≤ c.chY) (hz : 4 ≤ c.chZ)
    (hf1 : c.nbR = true) (hf2 : c.nbT = true) (hr : 1 ≤ k ∧ k < c.chZ - 1) :
    afterEdges c T (c.chX - 1) (c.chY - 1) k =
      2 * T (c.chX - 2) (c.chY - 1) k - T (c.chX - 3) (c.chY - 1) k := by
  unfold afterEdges
  rw [edgeFrontTop_skip c _ (c.chX - 1) (c.chY - 1) k (by omega)]
  rw [edgeFrontBottom_skip c _ (c.chX - 1) (c.chY - 1) k (by omega)]
  rw [edgeBackTop_skip c _ (c.chX - 1) (c.chY - 1) k (by omega)]
  rw [edgeBackBottom_skip c _ (c.chX - 1) (c.chY - 1) k (by omega)]
  rw [edgeRightFront_skip c _ (c.chX - 1) (c.chY - 1) k (by omega)]
  rw [edgeRightBack_skip c _ (c.chX - 1) (c.chY - 1) k (by omega)]
  unfold edgeRightTop
  rw [if_pos ⟨⟨hf1, hf2⟩, by omega⟩]
  try norm_num [Nat.sub_sub]
  try rw [edgeRightBottom_skip c _ (c.chX - 2) (c.chY - 1) k (by omega)]
  try rw [edgeLeftFront_skip c _ (c.chX - 2) (c.chY - 1) k (by omega)]
  try rw [edgeLeftBack_skip c _ (c.chX - 2) (c.chY - 1) k (by omega)]
  try rw [edgeLeftTop_skip c _ (c.chX - 2) (c.chY - 1) k (by omega)]
  try rw [edgeLeftBottom_skip c _ (c.chX - 2) (c.chY - 1) k (by omega)]
  try rw [edgeRightBottom_skip c _ (c.chX - 3) (c.chY - 1) k (by omega)]
  try rw [edgeLeftFront_skip c _ (c.chX - 3) (c.chY - 1) k (by omega)]
  try rw [edgeLeftBack_skip c _ (c.chX - 3) (c.chY - 1) k (by omega)]
  try rw [edgeLeftTop_skip c _ (c.chX - 3) (c.chY - 1) k (by omega)]
  try rw [edgeLeftBottom_skip c _ (c.chX - 3) (c.chY - 1) k (by omega)]

/-- Value produced at the right-back edge (chX-1,j,0) by the edge-extrapolation pass. -/
theorem afterEdges_RBa (c : Cfg) (T : Fld) (j : Nat)
    (hx : 4 ≤ c.chX) (hy : 4 ≤ c.chY) (hz : 4 ≤ c.chZ)
    (hf1 : c.nbR = true) (hf2 : c.nbBa = true) (hr : 1 ≤ j ∧ j < c.chY - 1) :
    afterEdges c T (c.chX - 1) j 0 =
      2 * T (c.chX - 2) j 0 - T (c.chX - 3) j 0 := by
  unfold afterEdges
  rw [edgeFrontTop_skip c _ (c.chX - 1) j 0 (by omega)]
  rw [edgeFrontBottom_skip c _ (c.chX - 1) j 0 (by omega)]
  rw [edgeBackTop_skip c _ (c.chX - 1) j 0 (by omega)]
  rw [edgeBackBottom_skip c _ (c.chX - 1) j 0 (by omega)]
  rw [edgeRightFront_skip c _ (c.chX - 1) j 0 (by omega)]
  unfold edgeRightBack
  rw [if_pos ⟨⟨hf1, hf2⟩, by omega⟩]
  try norm_num [Nat.sub_sub]
  try rw [edgeRightTop_skip c _ (c.chX - 2) j 0 (by omega)]
  try rw [edgeRightBottom_skip c _ (c.chX - 2) j 0 (by omega)]
  try rw [edgeLeftFront_skip c _ (c.chX - 2) j 0 (by omega)]
  try rw [edgeLeftBack_skip c _ (c.chX - 2) j 0 (by omega)]
  try rw [edgeLeftTop_skip c _ (c.chX - 2) j 0 (by omega)]
  try rw [edgeLeftBottom_skip c _ (c.chX - 2) j 0 (by omega)]
  try rw [edgeRightTop_skip c _ (c.chX - 3) j 0 (by omega)]
  try rw [edgeRightBottom_skip c _ (c.chX - 3) j 0 (by omega)]
  try rw [edgeLeftFront_skip c _ (c.chX - 3) j 0 (by omega)]
  try rw [edgeLeftBack_skip c _ (c.chX - 3) j 0 (by omega)]
  try rw [edgeLeftTop_skip c _ (c.chX - 3) j 0 (by omega)]
  try rw [edgeLeftBottom_skip c _ (c.chX - 3) j 0 (by omega)]

/-- Value produced at the right-front edge (chX-1,j,chZ-1) by the edge-extrapolation pass. -/
theorem afterEdges_RF (c : Cfg) (T : Fld) (j : Nat)
    (hx : 4 ≤ c.chX) (hy : 4 ≤ c.chY) (hz : 4 ≤ c.chZ)
    (hf1 : c.nbR = true) (hf2 : c.nbF = true) (hr : 1 ≤ j ∧ j < c.chY - 1) :
    afterEdges c T (c.chX - 1) j (c.chZ - 1) =
      2 * T (c.chX - 2) j (c.chZ - 1) - T (c.chX - 3) j (c.chZ - 1) := by
  unfold afterEdges
  rw [edgeFrontTop_skip c _ (c.chX - 1) j (c.chZ - 1) (by omega)]
  rw [edgeFrontBottom_skip c _ (c.chX - 1) j (c.chZ - 1) (by omega)]
  rw [edgeBackTop_skip c _ (c.chX - 1) j (c.chZ - 1) (by omega)]
  rw [edgeBackBottom_skip c _ (c.chX - 1) j (c.chZ - 1) (by omega)]
  unfold edgeRightFront
  rw [if_pos ⟨⟨hf1, hf2⟩, by omega⟩]
  try norm_num [Nat.sub_sub]
  try rw [edgeRightBack_skip c _ (c.chX - 2) j (c.chZ - 1) (by omega)]
  try rw [edgeRightTop_skip c _ (c.chX - 2) j (c.chZ - 1) (by omega)]
  try rw [edgeRightBottom_skip c _ (c.chX - 2) j (c.chZ - 1) (by omega)]
  try rw [edgeLeftFront_skip c _ (c.chX - 2) j (c.chZ - 1) (by omega)]
  try rw [edgeLeftBack_skip c _ (c.chX - 2) j (c.chZ - 1) (by omega)]
  try rw [edgeLeftTop_skip c _ (c.chX - 2) j (c.chZ - 1) (by omega)]
  try rw [edgeLeftBottom_skip c _ (c.chX - 2) j (c.chZ - 1) (by omega)]
  try rw [edgeRightBack_skip c _ (c.chX - 3) j (c.chZ - 1) (by omega)]
  try rw [edgeRightTop_skip c _ (c.chX - 3) j (c.chZ - 1) (by omega)]
  try rw [edgeRightBottom_skip c _ (c.chX - 3) j (c.chZ - 1) (by omega)]
  try rw [edgeLeftFront_skip c _ (c.chX - 3) j (c.chZ - 1) (by omega)]
  try rw [edgeLeftBack_skip c _ (c.chX - 3) j (c.chZ - 1) (by omega)]
  try rw [edgeLeftTop_skip c _ (c.chX - 3) j (c.chZ - 1) (by omega)]
  try rw [edgeLeftBottom_skip c _ (c.chX - 3) j (c.chZ - 1) (by omega)]

/-- Value produced at the back-bottom edge (i,0,0) by the edge-extrapolation pass. -/
theorem afterEdges_BB (c : Cfg) (T : Fld) (i : Nat)
    (hx : 4 ≤ c.chX) (hy : 4 ≤ c.chY) (hz : 4 ≤ c.chZ)
    (hf1 : c.nbBa = true) (hf2 : c.nbB = true) (hr : 1 ≤ i ∧ i < c.chX - 1) :
    afterEdges c T i 0 0 =
      2 * T i 0 1 - T i 0 2 := by
  unfold afterEdges
  rw [edgeFrontTop_skip c _ i 0 0 (by omega)]
  rw [edgeFrontBottom_skip c _ i 0 0 (by omega)]
  rw [edgeBackTop_skip c _ i 0 0 (by omega)]
  unfold edgeBackBottom
  rw [if_pos ⟨⟨hf1, hf2⟩, by omega⟩]
  try norm_num [Nat.sub_sub]
  try rw [edgeRightFront_skip c _ i 0 1 (by omega)]
  try rw [edgeRightBack_skip c _ i 0 1 (by omega)]
  try rw [edgeRightTop_skip c _ i 0 1 (by omega)]
  try rw [edgeRightBottom_skip c _ i 0 1 (by omega)]
  try rw [edgeLeftFront_skip c _ i 0 1 (by omega)]
  try rw [edgeLeftBack_skip c _ i 0 1 (by omega)]
  try rw [edgeLeftTop_skip c _ i 0 1 (by omega)]
  try rw [edgeLeftBottom_skip c _ i 0 1 (by omega)]
  try rw [edgeRightFront_skip c _ i 0 2 (by omega)]
  try rw [edgeRightBack_skip c _ i 0 2 (by omega)]
  try rw [edgeRightTop_skip c _ i 0 2 (by omega)]
  try rw [edgeRightBottom_skip c _ i 0 2 (by omega)]
  try rw [edgeLeftFront_skip c _ i 0 2 (by omega)]
  try rw [edgeLeftBack_skip c _ i 0 2 (by omega)]
  try rw [edgeLeftTop_skip c _ i 0 2 (by omega)]
  try rw [edgeLeftBottom_skip c _ i 0 2 (by omega)]

/-- Value produced at the back-top edge (i,chY-1,0) by the edge-extrapolation pass. -/
theorem afterEdges_BT (c : Cfg) (T : Fld) (i : Nat)
    (hx : 4 ≤ c.chX) (hy : 4 ≤ c.chY) (hz : 4 ≤ c.chZ)
    (hf1 : c.nbBa = true) (hf2 : c.nbT = true) (hr : 1 ≤ i ∧ i < c.chX - 1) :
    afterEdges c T i (c.chY - 1) 0 =
      2 * T i (c.chY - 1) 1 - T i (c.chY - 1) 2 := by
  unfold afterEdges
  rw [edgeFrontTop_skip c _ i (c.chY - 1) 0 (by omega)]
  rw [edgeFrontBottom_skip c _ i (c.chY - 1) 0 (by omega)]
  unfold edgeBackTop
  rw [if_pos ⟨⟨hf1, hf2⟩, by omega⟩]
  try norm_num [Nat.sub_sub]
  try rw [edgeBackBottom_skip c _ i (c.chY - 1) 1 (by omega)]
  try rw [edgeRightFront_skip c _ i (c.chY - 1) 1 (by omega)]
  try rw [edgeRightBack_skip c _ i (c.chY - 1) 1 (by omega)]
  try rw [edgeRightTop_skip c _ i (c.chY - 1) 1 (by omega)]
  try rw [edgeRightBottom_skip c _ i (c.chY - 1) 1 (by omega)]
  try rw [edgeLeftFront_skip c _ i (c.chY - 1) 1 (by omega)]
  try rw [edgeLeftBack_skip c _ i (c.chY - 1) 1 (by omega)]
  try rw [edgeLeftTop_skip c _ i (c.chY - 1) 1 (by omega)]
  try rw [edgeLeftBottom_skip c _ i (c.chY - 1) 1 (by omega)]
  try rw [edgeBackBottom_skip c _ i (c.chY - 1) 2 (by omega)]
  try rw [edgeRightFront_skip c _ i (c.chY - 1) 2 (by omega)]
  try rw [edgeRightBack_skip c _ i (c.chY - 1) 2 (by omega)]
  try rw [edgeRightTop_skip c _ i (c.chY - 1) 2 (by omega)]
  try rw [edgeRightBottom_skip c _ i (c.chY - 1) 2 (by omega)]
  try rw [edgeLeftFront_skip c _ i (c.chY - 1) 2 (by omega)]
  try rw [edgeLeftBack_skip c _ i (c.chY - 1) 2 (by omega)]
  try rw [edgeLeftTop_skip c _ i (c.chY - 1) 2 (by omega)]
  try rw [edgeLeftBottom_skip c _ i (c.chY - 1) 2 (by omega)]

/-- Value produced at the front-bottom edge (i,0,chZ-1) by the edge-extrapolation pass. -/
theorem afterEdges_FB (c : Cfg) (T : Fld) (i : Nat)
    (hx : 4 ≤ c.chX) (hy : 4 ≤ c.chY) (hz : 4 ≤ c.chZ)
    (hf1 : c.nbF = true) (hf2 : c.nbB = true) (hr : 1 ≤ i ∧ i < c.chX - 1) :
    afterEdges c T i 0 (c.chZ - 1) =
      2 * T i 0 (c.chZ - 2) - T i 0 (c.chZ - 3) := by
  unfold afterEdges
  rw [edgeFrontTop_skip c _ i 0 (c.chZ - 1) (by omega)]
  unfold edgeFrontBottom
  rw [if_pos ⟨⟨hf1, hf2⟩, by omega⟩]
  try norm_num [Nat.sub_sub]
  try rw [edgeBackTop_skip c _ i 0 (c.chZ - 2) (by omega)]
  try rw [edgeBackBottom_skip c _ i 0 (c.chZ - 2) (by omega)]
  try rw [edgeRightFront_skip c _ i 0 (c.chZ - 2) (by omega)]
  try rw [edgeRightBack_skip c _ i 0 (c.chZ - 2) (by omega)]
  try rw [edgeRightTop_skip c _ i 0 (c.chZ - 2) (by omega)]
  try rw [edgeRightBottom_skip c _ i 0 (c.chZ - 2) (by omega)]
  try rw [edgeLeftFront_skip c _ i 0 (c.chZ - 2) (by omega)]
  try rw [edgeLeftBack_skip c _ i 0 (c.chZ - 2) (by omega)]
  try rw [edgeLeftTop_skip c _ i 0 (c.chZ - 2) (by omega)]
  try rw [edgeLeftBottom_skip c _ i 0 (c.chZ - 2) (by omega)]
  try rw [edgeBackTop_skip c _ i 0 (c.chZ - 3) (by omega)]
  try rw [edgeBackBottom_skip c _ i 0 (c.chZ - 3) (by omega)]
  try rw [edgeRightFront_skip c _ i 0 (c.chZ - 3) (by omega)]
  try rw [edgeRightBack_skip c _ i 0 (c.chZ - 3) (by omega)]
  try rw [edgeRightTop_skip c _ i 0 (c.chZ - 3) (by omega)]
  try rw [edgeRightBottom_skip c _ i 0 (c.chZ - 3) (by omega)]
  try rw [edgeLeftFront_skip c _ i 0 (c.chZ - 3) (by omega)]
  try rw [edgeLeftBack_skip c _ i 0 (c.chZ - 3) (by omega)]
  try rw [edgeLeftTop_skip c _ i 0 (c.chZ - 3) (by omega)]
  try rw [edgeLeftBottom_skip c _ i 0 (c.chZ - 3) (by omega)]

/-- Value produced at the front-top edge (i,chY-1,chZ-1) by the edge-extrapolation pass. -/
theorem afterEdges_FT (c : Cfg) (T : Fld) (i : Nat)
    (hx : 4 ≤ c.chX) (hy : 4 ≤ c.chY) (hz : 4 ≤ c.chZ)
    (hf1 : c.nbF = true) (hf2 : c.nbT = true) (hr : 1 ≤ i ∧ i < c.chX - 1) :
    afterEdges c T i (c.chY - 1) (c.chZ - 1) =
      2 * T i (c.chY - 1) (c.chZ - 2) - T i (c.chY - 1) (c.chZ - 3) := by
  unfold afterEdges
  unfold edgeFrontTop
  rw [if_pos ⟨⟨hf1, hf2⟩, by omega⟩]
  try norm_num [Nat.sub_sub]
  try rw [edgeFrontBottom_skip c _ i (c.chY - 1) (c.chZ - 2) (by omega)]
  try rw [edgeBackTop_skip c _ i (c.chY - 1) (c.chZ - 2) (by omega)]
  try rw [edgeBackBottom_skip c _ i (c.chY - 1) (c.chZ - 2) (by omega)]
  try rw [edgeRightFront_skip c _ i (c.chY - 1) (c.chZ - 2) (by omega)]
  try rw [edgeRightBack_skip c _ i (c.chY - 1) (c.chZ - 2) (by omega)]
  try rw [edgeRightTop_skip c _ i (c.chY - 1) (c.chZ - 2) (by omega)]
  try rw [edgeRightBottom_skip c _ i (c.chY - 1) (c.chZ - 2) (by omega)]
  try rw [edgeLeftFront_skip c _ i (c.chY - 1) (c.chZ - 2) (by omega)]
  try rw [edgeLeftBack_skip c _ i (c.chY - 1) (c.chZ - 2) (by omega)]
  try rw [edgeLeftTop_skip c _ i (c.chY - 1) (c.chZ - 2) (by omega)]
  try rw [edgeLeftBottom_skip c _ i (c.chY - 1) (c.chZ - 2) (by omega)]
  try rw [edgeFrontBottom_skip c _ i (c.chY - 1) (c.chZ - 3) (by omega)]
  try rw [edgeBackTop_skip c _ i (c.chY - 1) (c.chZ - 3) (by omega)]
  try rw [edgeBackBottom_skip c _ i (c.chY - 1) (c.chZ - 3) (by omega)]
  try rw [edgeRightFront_skip c _ i (c.chY - 1) (c.chZ - 3) (by omega)]
  try rw [edgeRightBack_skip c _ i (c.chY - 1) (c.chZ - 3) (by omega)]
  try rw [edgeRightTop_skip c _ i (c.chY - 1) (c.chZ - 3) (by omega)]
  try rw [edgeRightBottom_skip c _ i (c.chY - 1) (c.chZ - 3) (by omega)]
  try rw [edgeLeftFront_skip c _ i (c.chY - 1) (c.chZ - 3) (by omega)]
  try rw [edgeLeftBack_skip c _ i (c.chY - 1) (c.chZ - 3) (by omega)]
  try rw [edgeLeftTop_skip c _ i (c.chY - 1) (c.chZ - 3) (by omega)]
  try rw [edgeLeftBottom_skip c _ i (c.chY - 1) (c.chZ - 3) (by omega)]

/-- Value produced at the corner (0,0,0) by the corner-average pass. -/
theorem afterCorners_LBBa (c : Cfg) (T : Fld)
    (hx : 4 ≤ c.chX) (hy : 4 ≤ c.chY) (hz : 4 ≤ c.chZ)
    (hf1 : c.nbL = true) (hf2 : c.nbB = true) (hf3 : c.nbBa = true) :
    afterCorners c T 0 0 0 =
      1 / 3 * (T 1 0 0 + T 0 1 0 + T 0 0 1) := by
  unfold afterCorners
  rw [cornerRTF_skip c _ 0 0 0 (by omega)]
  rw [cornerRTBa_skip c _ 0 0 0 (by omega)]
  rw [cornerRBF_skip c _ 0 0 0 (by omega)]
  rw [cornerRBBa_skip c _ 0 0 0 (by omega)]
  rw [cornerLTF_skip c _ 0 0 0 (by omega)]
  rw [cornerLTBa_skip c _ 0 0 0 (by omega)]
  rw [cornerLBF_skip c _ 0 0 0 (by omega)]
  unfold cornerLBBa
  rw [if_pos ⟨⟨hf1, hf2, hf3⟩, by omega⟩]
  try norm_num [Nat.sub_sub]

/-- Value produced at the corner (0,0,chZ-1) by the corner-average pass. -/
theorem afterCorners_LBF (c : Cfg) (T : Fld)
    (hx : 4 ≤ c.chX) (hy : 4 ≤ c.chY) (hz : 4 ≤ c.chZ)
    (hf1 : c.nbL = true) (hf2 : c.nbB = true) (hf3 : c.nbF = true) :
    afterCorners c T 0 0 (c.chZ - 1) =
      1 / 3 * (T 1 0 (c.chZ - 1) + T 0 1 (c.chZ - 1) + T 0 0 (c.chZ - 2)) := by
  unfold afterCorners
  rw [cornerRTF_skip c _ 0 0 (c.chZ - 1) (by omega)]
  rw [cornerRTBa_skip c _ 0 0 (c.chZ - 1) (by omega)]
  rw [cornerRBF_skip c _ 0 0 (c.chZ - 1) (by omega)]
  rw [cornerRBBa_skip c _ 0 0 (c.chZ - 1) (by omega)]
  rw [cornerLTF_skip c _ 0 0 (c.chZ - 1) (by omega)]
  rw [cornerLTBa_skip c _ 0 0 (c.chZ - 1) (by omega)]
  unfold cornerLBF
  rw [if_pos ⟨⟨hf1, hf2, hf3⟩, by omega⟩]
  try norm_num [Nat.sub_sub]
  try rw [cornerLBBa_skip c _ 1 0 (c.chZ - 1) (by omega)]
  try rw [cornerLBBa_skip c _ 0 1 (c.chZ - 1) (by omega)]
  try rw [cornerLBBa_skip c _ 0 0 (c.chZ - 2) (by omega)]

/-- Value produced at the corner (0,chY-1,0) by the corner-average pass. -/
theorem afterCorners_LTBa (c : Cfg) (T : Fld)
    (hx : 4 ≤ c.chX) (hy : 4 ≤ c.chY) (hz : 4 ≤ c.chZ)
    (hf1 : c.nbL = true) (hf2 : c.nbT = true) (hf3 : c.nbBa = true) :
    afterCorners c T 0 (c.chY - 1) 0 =
      1 / 3 * (T 1 (c.chY - 1) 0 + T 0 (c.chY - 2) 0 + T 0 (c.chY - 1) 1) := by
  unfold afterCorners
  rw [cornerRTF_skip c _ 0 (c.chY - 1) 0 (by omega)]
  rw [cornerRTBa_skip c _ 0 (c.chY - 1) 0 (by omega)]
  rw [cornerRBF_skip c _ 0 (c.chY - 1) 0 (by omega)]
  rw [cornerRBBa_skip c _ 0 (c.chY - 1) 0 (by omega)]
  rw [cornerLTF_skip c _ 0 (c.chY - 1) 0 (by omega)]
  unfold cornerLTBa
  rw [if_pos ⟨⟨hf1, hf2, hf3⟩, by omega⟩]
  try norm_num [Nat.sub_sub]
  try rw [cornerLBF_skip c _ 1 (c.chY - 1) 0 (by omega)]
  try rw [cornerLBBa_skip c _ 1 (c.chY - 1) 0 (by omega)]
  try rw [cornerLBF_skip c _ 0 (c.chY - 2) 0 (by omega)]
  try rw [cornerLBBa_skip c _ 0 (c.chY - 2) 0 (by omega)]
  try rw [cornerLBF_skip c _ 0 (c.chY - 1) 1 (by omega)]
  try rw [cornerLBBa_skip c _ 0 (c.chY - 1) 1 (by omega)]

/-- Value produced at the corner (0,chY-1,chZ-1) by the corner-average pass. -/
theorem afterCorners_LTF (c : Cfg) (T : Fld)
    (hx : 4 ≤ c.chX) (hy : 4 ≤ c.chY) (hz : 4 ≤ c.chZ)
    (hf1 : c.nbL = true) (hf2 : c.nbT = true) (hf3 : c.nbF = true) :
    afterCorners c T 0 (c.chY - 1) (c.chZ - 1) =
      1 / 3 * (T 1 (c.chY - 1) (c.chZ - 1) + T 0 (c.chY - 2) (c.chZ - 1) + T 0 (c.chY - 1) (c.chZ - 2)) := by
  unfold afterCorners
  rw [cornerRTF_skip c _ 0 (c.chY - 1) (c.chZ - 1) (by omega)]
  rw [cornerRTBa_skip c _ 0 (c.chY - 1) (c.chZ - 1) (by omega)]
  rw [cornerRBF_skip c _ 0 (c.chY - 1) (c.chZ - 1) (by omega)]
  rw [cornerRBBa_skip c _ 0 (c.chY - 1) (c.chZ - 1) (by omega)]
  unfold cornerLTF
  rw [if_pos ⟨⟨hf1, hf2, hf3⟩, by omega⟩]
  try norm_num [Nat.sub_sub]
  try rw [cornerLTBa_skip c _ 1 (c.chY - 1) (c.chZ - 1) (by omega)]
  try rw [cornerLBF_skip c _ 1 (c.chY - 1) (c.chZ - 1) (by omega)]
  try rw [cornerLBBa_skip c _ 1 (c.chY - 1) (c.chZ - 1) (by omega)]
  try rw [cornerLTBa_skip c _ 0 (c.chY - 2) (c.chZ - 1) (by omega)]
  try rw [cornerLBF_skip c _ 0 (c.chY - 2) (c.chZ - 1) (by omega)]
  try rw [cornerLBBa_skip c _ 0 (c.chY - 2) (c.chZ - 1) (by omega)]
  try rw [cornerLTBa_skip c _ 0 (c.chY - 1) (c.chZ - 2) (by omega)]
  try rw [cornerLBF_skip c _ 0 (c.chY - 1) (c.chZ - 2) (by omega)]
  try rw [cornerLBBa_skip c _ 0 (c.chY - 1) (c.chZ - 2) (by omega)]

/-- Value produced at the corner (chX-1,0,0) by the corner-average pass. -/
theorem afterCorners_RBBa (c : Cfg) (T : Fld)
    (hx : 4 ≤ c.chX) (hy : 4 ≤ c.chY) (hz : 4 ≤ c.chZ)
    (hf1 : c.nbR = true) (hf2 : c.nbB = true) (hf3 : c.nbBa = true) :
    afterCorners c T (c.chX - 1) 0 0 =
      1 / 3 * (T (c.chX - 2) 0 0 + T (c.chX - 1) 1 0 + T (c.chX - 1) 0 1) := by
  unfold afterCorners
  rw [cornerRTF_skip c _ (c.chX - 1) 0 0 (by omega)]
  rw [cornerRTBa_skip c _ (c.chX - 1) 0 0 (by omega)]
  rw [cornerRBF_skip c _ (c.chX - 1) 0 0 (by omega)]
  unfold cornerRBBa
  rw [if_pos ⟨⟨hf1, hf2, hf3⟩, by omega⟩]
  try norm_num [Nat.sub_sub]
  try rw [cornerLTF_skip c _ (c.chX - 2) 0 0 (by omega)]
  try rw [cornerLTBa_skip c _ (c.chX - 2) 0 0 (by omega)]
  try rw [cornerLBF_skip c _ (c.chX - 2) 0 0 (by omega)]
  try rw [cornerLBBa_skip c _ (c.chX - 2) 0 0 (by omega)]
  try rw [cornerLTF_skip c _ (c.chX - 1) 1 0 (by omega)]
  try rw [cornerLTBa_skip c _ (c.chX - 1) 1 0 (by omega)]
  try rw [cornerLBF_skip c _ (c.chX - 1) 1 0 (by omega)]
  try rw [cornerLBBa_skip c _ (c.chX - 1) 1 0 (by omega)]
  try rw [cornerLTF_skip c _ (c.chX - 1) 0 1 (by omega)]
  try rw [cornerLTBa_skip c _ (c.chX - 1) 0 1 (by omega)]
  try rw [cornerLBF_skip c _ (c.chX - 1) 0 1 (by omega)]
  try rw [cornerLBBa_skip c _ (c.chX - 1) 0 1 (by omega)]

/-- Value produced at the corner (chX-1,0,chZ-1) by the corner-average pass. -/
theorem afterCorners_RBF (c : Cfg) (T : Fld)
    (hx : 4 ≤ c.chX) (hy : 4 ≤ c.chY) (hz : 4 ≤ c.chZ)
    (hf1 : c.nbR = true) (hf2 : c.nbB = true) (hf3 : c.nbF = true) :
    afterCorners c T (c.chX - 1) 0 (c.chZ - 1) =
      1 / 3 * (T (c.chX - 2) 0 (c.chZ - 1) + T (c.chX - 1) 1 (c.chZ - 1) + T (c.chX - 1) 0 (c.chZ - 2)) := by
  unfold afterCorners
  rw [cornerRTF_skip c _ (c.chX - 1) 0 (c.chZ - 1) (by omega)]
  rw [cornerRTBa_skip c _ (c.chX - 1) 0 (c.chZ - 1) (by omega)]
  unfold cornerRBF
  rw [if_pos ⟨⟨hf1, hf2, hf3⟩, by omega⟩]
  try norm_num [Nat.sub_sub]
  try rw [cornerRBBa_skip c _ (c.chX - 2) 0 (c.chZ - 1) (by omega)]
  try rw [cornerLTF_skip c _ (c.chX - 2) 0 (c.chZ - 1) (by omega)]
  try rw [cornerLTBa_skip c _ (c.chX - 2) 0 (c.chZ - 1) (by omega)]
  try rw [cornerLBF_skip c _ (c.chX - 2) 0 (c.chZ - 1) (by omega)]
  try rw [cornerLBBa_skip c _ (c.chX - 2) 0 (c.chZ - 1) (by omega)]
  try rw [cornerRBBa_skip c _ (c.chX - 1) 1 (c.chZ - 1) (by omega)]
  try rw [cornerLTF_skip c _ (c.chX - 1) 1 (c.chZ - 1) (by omega)]
  try rw [cornerLTBa_skip c _ (c.chX - 1) 1 (c.chZ - 1) (by omega)]
  try rw [cornerLBF_skip c _ (c.chX - 1) 1 (c.chZ - 1) (by omega)]
  try rw [cornerLBBa_skip c _ (c.chX - 1) 1 (c.chZ - 1) (by omega)]
  try rw [cornerRBBa_skip c _ (c.chX - 1) 0 (c.chZ - 2) (by omega)]
  try rw [cornerLTF_skip c _ (c.chX - 1) 0 (c.chZ - 2) (by omega)]
  try rw [cornerLTBa_skip c _ (c.chX - 1) 0 (c.chZ - 2) (by omega)]
  try rw [cornerLBF_skip c _ (c.chX - 1) 0 (c.chZ - 2) (by omega)]
  try rw [cornerLBBa_skip c _ (c.chX - 1) 0 (c.chZ - 2) (by omega)]

/-- Value produced at the corner (chX-1,chY-1,0) by the corner-average pass. -/
theorem afterCorners_RTBa (c : Cfg) (T : Fld)
    (hx : 4 ≤ c.chX) (hy : 4 ≤ c.chY) (hz : 4 ≤ c.chZ)
    (hf1 : c.nbR = true) (hf2 : c.nbT = true) (hf3 : c.nbBa = true) :
    afterCorners c T (c.chX - 1) (c.chY - 1) 0 =
      1 / 3 * (T (c.chX - 2) (c.chY - 1) 0 + T (c.chX - 1) (c.chY - 2) 0 + T (c.chX - 1) (c.chY - 1) 1) := by
  unfold afterCorners
  rw [cornerRTF_skip c _ (c.chX - 1) (c.chY - 1) 0 (by omega)]
  unfold cornerRTBa
  rw [if_pos ⟨⟨hf1, hf2, hf3⟩, by omega⟩]
  try norm_num [Nat.sub_sub]
  try rw [cornerRBF_skip c _ (c.chX - 2) (c.chY - 1) 0 (by omega)]
  try rw [cornerRBBa_skip c _ (c.chX - 2) (c.chY - 1) 0 (by omega)]
  try rw [cornerLTF_skip c _ (c.chX - 2) (c.chY - 1) 0 (by omega)]
  try rw [cornerLTBa_skip c _ (c.chX - 2) (c.chY - 1) 0 (by omega)]
  try rw [cornerLBF_skip c _ (c.chX - 2) (c.chY - 1) 0 (by omega)]
  try rw [cornerLBBa_skip c _ (c.chX - 2) (c.chY - 1) 0 (by omega)]
  try rw [cornerRBF_skip c _ (c.chX - 1) (c.chY - 2) 0 (by omega)]
  try rw [cornerRBBa_skip c _ (c.chX - 1) (c.chY - 2) 0 (by omega)]
  try rw [cornerLTF_skip c _ (c.chX - 1) (c.chY - 2) 0 (by omega)]
  try rw [cornerLTBa_skip c _ (c.chX - 1) (c.chY - 2) 0 (by omega)]
  try rw [cornerLBF_skip c _ (c.chX - 1) (c.chY - 2) 0 (by omega)]
  try rw [cornerLBBa_skip c _ (c.chX - 1) (c.chY - 2) 0 (by omega)]
  try rw [cornerRBF_skip c _ (c.chX - 1) (c.chY - 1) 1 (by omega)]
  try rw [cornerRBBa_skip c _ (c.chX - 1) (c.chY - 1) 1 (by omega)]
  try rw [cornerLTF_skip c _ (c.chX - 1) (c.chY - 1) 1 (by omega)]
  try rw [cornerLTBa_skip c _ (c.chX - 1) (c.chY - 1) 1 (by omega)]
  try rw [cornerLBF_skip c _ (c.chX - 1) (c.chY - 1) 1 (by omega)]
  try rw [cornerLBBa_skip c _ (c.chX - 1) (c.chY - 1) 1 (by omega)]

/-- Value produced at the corner (chX-1,chY-1,chZ-1) by the corner-average pass. -/
theorem afterCorners_RTF (c : Cfg) (T : Fld)
    (hx : 4 ≤ c.chX) (hy : 4 ≤ c.chY) (hz : 4 ≤ c.chZ)
    (hf1 : c.nbR = true) (hf2 : c.nbT = true) (hf3 : c.nbF = true) :
    afterCorners c T (c.chX - 1) (c.chY - 1) (c.chZ - 1) =
      1 / 3 * (T (c.chX - 2) (c.chY - 1) (c.chZ - 1) + T (c.chX - 1) (c.chY - 2) (c.chZ - 1) + T (c.chX - 1) (c.chY - 1) (c.chZ - 2)) := by
  unfold afterCorners
  unfold cornerRTF
  rw [if_pos ⟨⟨hf1, hf2, hf3⟩, by omega⟩]
  try norm_num [Nat.sub_sub]
  try rw [cornerRTBa_skip c _ (c.chX - 2) (c.chY - 1) (c.chZ - 1) (by omega)]
  try rw [cornerRBF_skip c _ (c.chX - 2) (c.chY - 1) (c.chZ - 1) (by omega)]
  try rw [cornerRBBa_skip c _ (c.chX - 2) (c.chY - 1) (c.chZ - 1) (by omega)]
  try rw [cornerLTF_skip c _ (c.chX - 2) (c.chY - 1) (c.chZ - 1) (by omega)]
  try rw [cornerLTBa_skip c _ (c.chX - 2) (c.chY - 1) (c.chZ - 1) (by omega)]
  try rw [cornerLBF_skip c _ (c.chX - 2) (c.chY - 1) (c.chZ - 1) (by omega)]
  try rw [cornerLBBa_skip c _ (c.chX - 2) (c.chY - 1) (c.chZ - 1) (by omega)]
  try rw [cornerRTBa_skip c _ (c.chX - 1) (c.chY - 2) (c.chZ - 1) (by omega)]
  try rw [cornerRBF_skip c _ (c.chX - 1) (c.chY - 2) (c.chZ - 1) (by omega)]
  try rw [cornerRBBa_skip c _ (c.chX - 1) (c.chY - 2) (c.chZ - 1) (by omega)]
  try rw [cornerLTF_skip c _ (c.chX - 1) (c.chY - 2) (c.chZ - 1) (by omega)]
  try rw [cornerLTBa_skip c _ (c.chX - 1) (c.chY - 2) (c.chZ - 1) (by omega)]
  try rw [cornerLBF_skip c _ (c.chX - 1) (c.chY - 2) (c.chZ - 1) (by omega)]
  try rw [cornerLBBa_skip c _ (c.chX - 1) (c.chY - 2) (c.chZ - 1) (by omega)]
  try rw [cornerRTBa_skip c _ (c.chX - 1) (c.chY - 1) (c.chZ - 2) (by omega)]
  try rw [cornerRBF_skip c _ (c.chX - 1) (c.chY - 1) (c.chZ - 2) (by omega)]
  try rw [cornerRBBa_skip c _ (c.chX - 1) (c.chY - 1) (c.chZ - 2) (by omega)]
  try rw [cornerLTF_skip c _ (c.chX - 1) (c.chY - 1) (c.chZ - 2) (by omega)]
  try rw [cornerLTBa_skip c _ (c.chX - 1) (c.chY - 1) (c.chZ - 2) (by omega)]
  try rw [cornerLBF_skip c _ (c.chX - 1) (c.chY - 1) (c.chZ - 2) (by omega)]
  try rw [cornerLBBa_skip c _ (c.chX - 1) (c.chY - 1) (c.chZ - 2) (by omega)]

/-- The corner-average pass leaves every cell that is not one of the eight
block corners unchanged. -/
theorem cornersPreserve (c : Cfg) (T : Fld) (i j k : Nat)
    (h : ¬((i = 0 ∨ i = c.chX - 1) ∧ (j = 0 ∨ j = c.chY - 1) ∧ (k = 0 ∨ k = c.chZ - 1))) :
    afterCorners c T i j k = T i j k := by
  unfold afterCorners
  rw [cornerRTF_skip c _ i j k (by omega)]
  rw [cornerRTBa_skip c _ i j k (by omega)]
  rw [cornerRBF_skip c _ i j k (by omega)]
  rw [cornerRBBa_skip c _ i j k (by omega)]
  rw [cornerLTF_skip c _ i j k (by omega)]
  rw [cornerLTBa_skip c _ i j k (by omega)]
  rw [cornerLBF_skip c _ i j k (by omega)]
  rw [cornerLBBa_skip c _ i j k (by omega)]

/-- The edge-extrapolation pass leaves every cell unchanged that does not
have two of its three coordinates on the block boundary. -/
theorem edgesPreserve (c : Cfg) (T : Fld) (i j k : Nat)
    (h1 : ¬((i = 0 ∨ i = c.chX - 1) ∧ (j = 0 ∨ j = c.chY - 1)))
    (h2 : ¬((i = 0 ∨ i = c.chX - 1) ∧ (k = 0 ∨ k = c.chZ - 1)))
    (h3 : ¬((j = 0 ∨ j = c.chY - 1) ∧ (k = 0 ∨ k = c.chZ - 1))) :
    afterEdges c T i j k = T i j k := by
  unfold afterEdges
  rw [edgeFrontTop_skip c _ i j k (by omega)]
  rw [edgeFrontBottom_skip c _ i j k (by omega)]
  rw [edgeBackTop_skip c _ i j k (by omega)]
  rw [edgeBackBottom_skip c _ i j k (by omega)]
  rw [edgeRightFront_skip c _ i j k (by omega)]
  rw [edgeRightBack_skip c _ i j k (by omega)]
  rw [edgeRightTop_skip c _ i j k (by omega)]
  rw [edgeRightBottom_skip c _ i j k (by omega)]
  rw [edgeLeftFront_skip c _ i j k (by omega)]
  rw [edgeLeftBack_skip c _ i j k (by omega)]
  rw [edgeLeftTop_skip c _ i j k (by omega)]
  rw [edgeLeftBottom_skip c _ i j k (by omega)]

/-- The six face updates leave every strictly interior cell unchanged. -/
theorem facesPreserveInterior (c : Cfg) (h : Halos) (T0 T : Fld) (i j k : Nat)
    (hi : 1 ≤ i ∧ i ≤ c.chX - 2) (hj : 1 ≤ j ∧ j ≤ c.chY - 2)
    (hk : 1 ≤ k ∧ k ≤ c.chZ - 2) :
    afterFaces c h T0 T i j k = T i j k := by
  unfold afterFaces
  rw [faceFront_skip c _ _ _ i j k (by omega)]
  rw [faceBack_skip c _ _ _ i j k (by omega)]
  rw [faceTop_skip c _ _ _ i j k (by omega)]
  rw [faceBottom_skip c _ _ _ i j k (by omega)]
  rw [faceRight_skip c _ _ _ i j k (by omega)]
  rw [faceLeft_skip c _ _ _ i j k (by omega)]

/-- One full field update of the time loop leaves every strictly interior
cell unchanged: faces, edges and corners all write cells with at least one
coordinate on the block boundary. -/
theorem stepFieldPreservesInterior (c : Cfg) (h : Halos) (T0 T : Fld) (i j k : Nat)
    (hi : 1 ≤ i ∧ i ≤ c.chX - 2) (hj : 1 ≤ j ∧ j ≤ c.chY - 2)
    (hk : 1 ≤ k ∧ k ≤ c.chZ - 2) :
    stepField c h T0 T i j k = T i j k := by
  unfold stepField
  rw [cornersPreserve c _ i j k (by omega)]
  rw [edgesPreserve c _ i j k (by omega) (by omega) (by omega)]
  exact facesPreserveInterior c h T0 T i j k hi hj hk

/-- The initial field is zero at every strictly interior cell: the boundary
conditions write only cells with a coordinate on the block boundary. -/
theorem initFieldInterior (c : Cfg) (cy : Nat) (sY : ℚ) (i j k : Nat)
    (hi : 1 ≤ i ∧ i ≤ c.chX - 2) (hj : 1 ≤ j ∧ j ≤ c.chY - 2)
    (hk : 1 ≤ k ∧ k ≤ c.chZ - 2) :
    initField c cy sY i j k = 0 := by
  unfold initField
  rw [bcFront_skip c cy sY _ i j k (by omega)]
  rw [bcBack_skip c cy sY _ i j k (by omega)]
  rw [bcRight_skip c cy sY _ i j k (by omega)]
  rw [bcLeft_skip c cy sY _ i j k (by omega)]
  rw [bcTop_skip c _ i j k (by omega)]
  rfl

/-- Single-process configuration: chunck 3×3×3 and all six neighbours equal
to MPI_PROC_NULL, with concrete diffusion coefficients. -/
def cfgOne : Cfg := ⟨3, 3, 3, false, false, false, false, false, false, 1/10, 1/10, 1/10⟩

/-- Fully interior process configuration: chunck 4×4×4 and a real neighbour
in all six directions. -/
def cfgAll : Cfg := ⟨4, 4, 4, true, true, true, true, true, true, 1/10, 1/10, 1/10⟩

/-- Halo data that is zero in every direction. -/
def halosZero : Halos :=
  ⟨fun _ _ => 0, fun _ _ => 0, fun _ _ => 0, fun _ _ => 0, fun _ _ => 0, fun _ _ => 0⟩

/-- Unfolding of one iteration of `iterRun`. -/
theorem iterRun_succ (c : Cfg) (hs : Nat → Halos) (n : Nat) (T : Fld) :
    iterRun c hs (n + 1) T =
      stepField c (hs n) (iterRun c hs n T) (iterRun c hs n T) := rfl

/-- C9: no strictly interior cell is ever written inside the time loop — after
any number of completed iterations every cell with all three indices in
[1, chunck-2] still holds its initialisation value 0.0, and a single field
update leaves every such cell of the current field unchanged. -/
theorem c9_interior_untouched (c : Cfg) (hs : Nat → Halos) (cy : Nat) (sY : ℚ)
    (n i j k : Nat)
    (hi : 1 ≤ i ∧ i ≤ c.chX - 2) (hj : 1 ≤ j ∧ j ≤ c.chY - 2)
    (hk : 1 ≤ k ∧ k ≤ c.chZ - 2) :
    iterRun c hs n (initField c cy sY) i j k = 0 ∧
    ∀ T0 T : Fld, stepField c (hs n) T0 T i j k = T i j k := by
  refine ⟨?_, fun T0 T => stepFieldPreservesInterior c (hs n) T0 T i j k hi hj hk⟩
  induction n with
  | zero => exact initFieldInterior c cy sY i j k hi hj hk
  | succ m ih =>
    rw [iterRun_succ]
    rw [stepFieldPreservesInterior c (hs m) _ _ i j k hi hj hk]
    exact ih

/-- Witness for C9 at the single-process 3×3×3 configuration: the unique
strictly interior cell still holds 0 after two iterations. -/
theorem c9_witness :
    iterRun cfgOne (fun _ => halosZero) 2 (initField cfgOne 0 (1/2)) 1 1 1 = 0 :=
  (c9_interior_untouched cfgOne (fun _ => halosZero) 0 (1/2) 2 1 1 1
    (by decide) (by decide) (by decide)).1

/-- C1 (code bug): the loop body never applies the stencil to strictly
interior cells — the corresponding region of the source is an empty GPU
placeholder (heat3D.cpp:606-614) — so at the single-process 3×3×3
configuration with the boundary-initialised field the interior cell
(1,1,1) keeps its value 0 after a full iteration, while the update formula
stated by the specification would assign Dx + Dy + Dz = 3/10 there. -/
theorem c1_interior_stencil_missing :
    stepField cfgOne halosZero (initField cfgOne 0 (1/2)) (initField cfgOne 0 (1/2)) 1 1 1
      = initField cfgOne 0 (1/2) 1 1 1 ∧
    initField cfgOne 0 (1/2) 1 1 1 = 0 ∧
    stencilSpec cfgOne.Dx cfgOne.Dy cfgOne.Dz (initField cfgOne 0 (1/2)) 1 1 1 = 3/10 := by
  refine ⟨by decide, by decide, ?_⟩
  norm_num [stencilSpec, initField, bcFront, bcBack, bcRight, bcLeft, bcTop, zeroFld, ramp, cfgOne]
/-- C7: in every iteration, strictly after the six face updates, every
domain-edge cell whose two adjacent faces both have real neighbours is set
to 2*T[one step in] - T[two steps in] along the inward axis used by the
source, and every corner cell whose three adjacent faces have real
neighbours is set to one third of the sum of its three inward neighbours;
the equations hold of the fully updated field of the iteration (stated for
non-degenerate chunks with at least 4 cells per axis, where face, edge and
corner cells are disjoint). -/
theorem c7_edge_corner_completion (c : Cfg) (h : Halos) (T0 T : Fld)
    (hx : 4 ≤ c.chX) (hy : 4 ≤ c.chY) (hz : 4 ≤ c.chZ) :
    (c.nbL = true → c.nbB = true → ∀ k : Nat, 1 ≤ k → k < c.chZ - 1 →
      stepField c h T0 T 0 0 k =
        2 * stepField c h T0 T 1 0 k - stepField c h T0 T 2 0 k) ∧
    (c.nbL = true → c.nbT = true → ∀ k : Nat, 1 ≤ k → k < c.chZ - 1 →
      stepField c h T0 T 0 (c.chY - 1) k =
        2 * stepField c h T0 T 1 (c.chY - 1) k - stepField c h T0 T 2 (c.chY - 1) k) ∧
    (c.nbL = true → c.nbBa = true → ∀ j : Nat, 1 ≤ j → j < c.chY - 1 →
      stepField c h T0 T 0 j 0 =
        2 * stepField c h T0 T 1 j 0 - stepField c h T0 T 2 j 0) ∧
    (c.nbL = true → c.nbF = true → ∀ j : Nat, 1 ≤ j → j < c.chY - 1 →
      stepField c h T0 T 0 j (c.chZ - 1) =
        2 * stepField c h T0 T 1 j (c.chZ - 1) - stepField c h T0 T 2 j (c.chZ - 1)) ∧
    (c.nbR = true → c.nbB = true → ∀ k : Nat, 1 ≤ k → k < c.chZ - 1 →
      stepField c h T0 T (c.chX - 1) 0 k =
        2 * stepField c h T0 T (c.chX - 2) 0 k - stepField c h T0 T (c.chX - 3) 0 k) ∧
    (c.nbR = true → c.nbT = true → ∀ k : Nat, 1 ≤ k → k < c.chZ - 1 →
      stepField c h T0 T (c.chX - 1) (c.chY - 1) k =
        2 * stepField c h T0 T (c.chX - 2) (c.chY - 1) k - stepField c h T0 T (c.chX - 3) (c.chY - 1) k) ∧
    (c.nbR = true → c.nbBa = true → ∀ j : Nat, 1 ≤ j → j < c.chY - 1 →
      stepField c h T0 T (c.chX - 1) j 0 =
        2 * stepField c h T0 T (c.chX - 2) j 0 - stepField c h T0 T (c.chX - 3) j 0) ∧
    (c.nbR = true → c.nbF = true → ∀ j : Nat, 1 ≤ j → j < c.chY - 1 →
      stepField c h T0 T (c.chX - 1) j (c.chZ - 1) =
        2 * stepField c h T0 T (c.chX - 2) j (c.chZ - 1) - stepField c h T0 T (c.chX - 3) j (c.chZ - 1)) ∧
    (c.nbBa = true → c.nbB = true → ∀ i : Nat, 1 ≤ i → i < c.chX - 1 →
      stepField c h T0 T i 0 0 =
        2 * stepField c h T0 T i 0 1 - stepField c h T0 T i 0 2) ∧
    (c.nbBa = true → c.nbT = true → ∀ i : Nat, 1 ≤ i → i < c.chX - 1 →
      stepField c h T0 T i (c.chY - 1) 0 =
        2 * stepField c h T0 T i (c.chY - 1) 1 - stepField c h T0 T i (c.chY - 1) 2) ∧
    (c.nbF = true → c.nbB = true → ∀ i : Nat, 1 ≤ i → i < c.chX - 1 →
      stepField c h T0 T i 0 (c.chZ - 1) =
        2 * stepField c h T0 T i 0 (c.chZ - 2) - stepField c h T0 T i 0 (c.chZ - 3)) ∧
    (c.nbF = true → c.nbT = true → ∀ i : Nat, 1 ≤ i → i < c.chX - 1 →
      stepField c h T0 T i (c.chY - 1) (c.chZ - 1) =
        2 * stepField c h T0 T i (c.chY - 1) (c.chZ - 2) - stepField c h T0 T i (c.chY - 1) (c.chZ - 3)) ∧
    (c.nbL = true → c.nbB = true → c.nbBa = true →
      stepField c h T0 T 0 0 0 =
        1 / 3 * (stepField c h T0 T 1 0 0 + stepField c h T0 T 0 1 0 + stepField c h T0 T 0 0 1)) ∧
    (c.nbL = true → c.nbB = true → c.nbF = true →
      stepField c h T0 T 0 0 (c.chZ - 1) =
        1 / 3 * (stepField c h T0 T 1 0 (c.chZ - 1) + stepField c h T0 T 0 1 (c.chZ - 1) + stepField c h T0 T 0 0 (c.chZ - 2))) ∧
    (c.nbL = true → c.nbT = true → c.nbBa = true →
      stepField c h T0 T 0 (c.chY - 1) 0 =
        1 / 3 * (stepField c h T0 T 1 (c.chY - 1) 0 + stepField c h T0 T 0 (c.chY - 2) 0 + stepField c h T0 T 0 (c.chY - 1) 1)) ∧
    (c.nbL = true → c.nbT = true → c.nbF = true →
      stepField c h T0 T 0 (c.chY - 1) (c.chZ - 1) =
        1 / 3 * (stepField c h T0 T 1 (c.chY - 1) (c.chZ - 1) + stepField c h T0 T 0 (c.chY - 2) (c.chZ - 1) + stepField c h T0 T 0 (c.chY - 1) (c.chZ - 2))) ∧
    (c.nbR = true → c.nbB = true → c.nbBa = true →
      stepField c h T0 T (c.chX - 1) 0 0 =
        1 / 3 * (stepField c h T0 T (c.chX - 2) 0 0 + stepField c h T0 T (c.chX - 1) 1 0 + stepField c h T0 T (c.chX - 1) 0 1)) ∧
    (c.nbR = true → c.nbB = true → c.nbF = true →
      stepField c h T0 T (c.chX - 1) 0 (c.chZ - 1) =
        1 / 3 * (stepField c h T0 T (c.chX - 2) 0 (c.chZ - 1) + stepField c h T0 T (c.chX - 1) 1 (c.chZ - 1) + stepField c h T0 T (c.chX - 1) 0 (c.chZ - 2))) ∧
    (c.nbR = true → c.nbT = true → c.nbBa = true →
      stepField c h T0 T (c.chX - 1) (c.chY - 1) 0 =
        1 / 3 * (stepField c h T0 T (c.chX - 2) (c.chY - 1) 0 + stepField c h T0 T (c.chX - 1) (c.chY - 2) 0 + stepField c h T0 T (c.chX - 1) (c.chY - 1) 1)) ∧
    (c.nbR = true → c.nbT = true → c.nbF = true →
      stepField c h T0 T (c.chX - 1) (c.chY - 1) (c.chZ - 1) =
        1 / 3 * (stepField c h T0 T (c.chX - 2) (c.chY - 1) (c.chZ - 1) + stepField c h T0 T (c.chX - 1) (c.chY - 2) (c.chZ - 1) + stepField c h T0 T (c.chX - 1) (c.chY - 1) (c.chZ - 2))) := by
  refine ⟨?_, ?_, ?_, ?_, ?_, ?_, ?_, ?_, ?_, ?_, ?_, ?_, ?_, ?_, ?_, ?_, ?_, ?_, ?_, ?_⟩
  · intro hf1 hf2 k h1 h2
    unfold stepField
    rw [cornersPreserve c _ 0 0 k (by omega)]
    rw [afterEdges_LB c _ k hx hy hz hf1 hf2 ⟨h1, h2⟩]
    rw [cornersPreserve c _ 1 0 k (by omega)]
    rw [edgesPreserve c _ 1 0 k (by omega) (by omega) (by omega)]
    rw [cornersPreserve c _ 2 0 k (by omega)]
    rw [edgesPreserve c _ 2 0 k (by omega) (by omega) (by omega)]
  · intro hf1 hf2 k h1 h2
    unfold stepField
    rw [cornersPreserve c _ 0 (c.chY - 1) k (by omega)]
    rw [afterEdges_LT c _ k hx hy hz hf1 hf2 ⟨h1, h2⟩]
    rw [cornersPreserve c _ 1 (c.chY - 1) k (by omega)]
    rw [edgesPreserve c _ 1 (c.chY - 1) k (by omega) (by omega) (by omega)]
    rw [cornersPreserve c _ 2 (c.chY - 1) k (by omega)]
    rw [edgesPreserve c _ 2 (c.chY - 1) k (by omega) (by omega) (by omega)]
  · intro hf1 hf2 j h1 h2
    unfold stepField
    rw [cornersPreserve c _ 0 j 0 (by omega)]
    rw [afterEdges_LBa c _ j hx hy hz hf1 hf2 ⟨h1, h2⟩]
    rw [cornersPreserve c _ 1 j 0 (by omega)]
    rw [edgesPreserve c _ 1 j 0 (by omega) (by omega) (by omega)]
    rw [cornersPreserve c _ 2 j 0 (by omega)]
    rw [edgesPreserve c _ 2 j 0 (by omega) (by omega) (by omega)]
  · intro hf1 hf2 j h1 h2
    unfold stepField
    rw [cornersPreserve c _ 0 j (c.chZ - 1) (by omega)]
    rw [afterEdges_LF c _ j hx hy hz hf1 hf2 ⟨h1, h2⟩]
    rw [cornersPreserve c _ 1 j (c.chZ - 1) (by omega)]
    rw [edgesPreserve c _ 1 j (c.chZ - 1) (by omega) (by omega) (by omega)]
    rw [cornersPreserve c _ 2 j (c.chZ - 1) (by omega)]
    rw [edgesPreserve c _ 2 j (c.chZ - 1) (by omega) (by omega) (by omega)]
  · intro hf1 hf2 k h1 h2
    unfold stepField
    rw [cornersPreserve c _ (c.chX - 1) 0 k (by omega)]
    rw [afterEdges_RB c _ k hx hy hz hf1 hf2 ⟨h1, h2⟩]
    rw [cornersPreserve c _ (c.chX - 2) 0 k (by omega)]
    rw [edgesPreserve c _ (c.chX - 2) 0 k (by omega) (by omega) (by omega)]
    rw [cornersPreserve c _ (c.chX - 3) 0 k (by omega)]
    rw [edgesPreserve c _ (c.chX - 3) 0 k (by omega) (by omega) (by omega)]
  · intro hf1 hf2 k h1 h2
    unfold stepField
    rw [cornersPreserve c _ (c.chX - 1) (c.chY - 1) k (by omega)]
    rw [afterEdges_RT c _ k hx hy hz hf1 hf2 ⟨h1, h2⟩]
    rw [cornersPreserve c _ (c.chX - 2) (c.chY - 1) k (by omega)]
    rw [edgesPreserve c _ (c.chX - 2) (c.chY - 1) k (by omega) (by omega) (by omega)]
    rw [cornersPreserve c _ (c.chX - 3) (c.chY - 1) k (by omega)]
    rw [edgesPreserve c _ (c.chX - 3) (c.chY - 1) k (by omega) (by omega) (by omega)]
  · intro hf1 hf2 j h1 h2
    unfold stepField
    rw [cornersPreserve c _ (c.chX - 1) j 0 (by omega)]
    rw [afterEdges_RBa c _ j hx hy hz hf1 hf2 ⟨h1, h2⟩]
    rw [cornersPreserve c _ (c.chX - 2) j 0 (by omega)]
    rw [edgesPreserve c _ (c.chX - 2) j 0 (by omega) (by omega) (by omega)]
    rw [cornersPreserve c _ (c.chX - 3) j 0 (by omega)]
    rw [edgesPreserve c _ (c.chX - 3) j 0 (by omega) (by omega) (by omega)]
  · intro hf1 hf2 j h1 h2
    unfold stepField
    rw [cornersPreserve c _ (c.chX - 1) j (c.chZ - 1) (by omega)]
    rw [afterEdges_RF c _ j hx hy hz hf1 hf2 ⟨h1, h2⟩]
    rw [cornersPreserve c _ (c.chX - 2) j (c.chZ - 1) (by omega)]
    rw [edgesPreserve c _ (c.chX - 2) j (c.chZ - 1) (by omega) (by omega) (by omega)]
    rw [cornersPreserve c _ (c.chX - 3) j (c.chZ - 1) (by omega)]
    rw [edgesPreserve c _ (c.chX - 3) j (c.chZ - 1) (by omega) (by omega) (by omega)]
  · intro hf1 hf2 i h1 h2
    unfold stepField
    rw [cornersPreserve c _ i 0 0 (by omega)]
    rw [afterEdges_BB c _ i hx hy hz hf1 hf2 ⟨h1, h2⟩]
    rw [cornersPreserve c _ i 0 1 (by omega)]
    rw [edgesPreserve c _ i 0 1 (by omega) (by omega) (by omega)]
    rw [cornersPreserve c _ i 0 2 (by omega)]
    rw [edgesPreserve c _ i 0 2 (by omega) (by omega) (by omega)]
  · intro hf1 hf2 i h1 h2
    unfold stepField
    rw [cornersPreserve c _ i (c.chY - 1) 0 (by omega)]
    rw [afterEdges_BT c _ i hx hy hz hf1 hf2 ⟨h1, h2⟩]
    rw [cornersPreserve c _ i (c.chY - 1) 1 (by omega)]
    rw [edgesPreserve c _ i (c.chY - 1) 1 (by omega) (by omega) (by omega)]
    rw [cornersPreserve c _ i (c.chY - 1) 2 (by omega)]
    rw [edgesPreserve c _ i (c.chY - 1) 2 (by omega) (by omega) (by omega)]
  · intro hf1 hf2 i h1 h2
    unfold stepField
    rw [cornersPreserve c _ i 0 (c.chZ - 1) (by omega)]
    rw [afterEdges_FB c _ i hx hy hz hf1 hf2 ⟨h1, h2⟩]
    rw [cornersPreserve c _ i 0 (c.chZ - 2) (by omega)]
    rw [edgesPreserve c _ i 0 (c.chZ - 2) (by omega) (by omega) (by omega)]
    rw [cornersPreserve c _ i 0 (c.chZ - 3) (by omega)]
    rw [edgesPreserve c _ i 0 (c.chZ - 3) (by omega) (by omega) (by omega)]
  · intro hf1 hf2 i h1 h2
    unfold stepField
    rw [cornersPreserve c _ i (c.chY - 1) (c.chZ - 1) (by omega)]
    rw [afterEdges_FT c _ i hx hy hz hf1 hf2 ⟨h1, h2⟩]
    rw [cornersPreserve c _ i (c.chY - 1) (c.chZ - 2) (by omega)]
    rw [edgesPreserve c _ i (c.chY - 1) (c.chZ - 2) (by omega) (by omega) (by omega)]
    rw [cornersPreserve c _ i (c.chY - 1) (c.chZ - 3) (by omega)]
    rw [edgesPreserve c _ i (c.chY - 1) (c.chZ - 3) (by omega) (by omega) (by omega)]
  · intro hf1 hf2 hf3
    unfold stepField
    rw [afterCorners_LBBa c _ hx hy hz hf1 hf2 hf3]
    rw [cornersPreserve c _ 1 0 0 (by omega)]
    rw [cornersPreserve c _ 0 1 0 (by omega)]
    rw [cornersPreserve c _ 0 0 1 (by omega)]
  · intro hf1 hf2 hf3
    unfold stepField
    rw [afterCorners_LBF c _ hx hy hz hf1 hf2 hf3]
    rw [cornersPreserve c _ 1 0 (c.chZ - 1) (by omega)]
    rw [cornersPreserve c _ 0 1 (c.chZ - 1) (by omega)]
    rw [cornersPreserve c _ 0 0 (c.chZ - 2) (by omega)]
  · intro hf1 hf2 hf3
    unfold stepField
    rw [afterCorners_LTBa c _ hx hy hz hf1 hf2 hf3]
    rw [cornersPreserve c _ 1 (c.chY - 1) 0 (by omega)]
    rw [cornersPreserve c _ 0 (c.chY - 2) 0 (by omega)]
    rw [cornersPreserve c _ 0 (c.chY - 1) 1 (by omega)]
  · intro hf1 hf2 hf3
    unfold stepField
    rw [afterCorners_LTF c _ hx hy hz hf1 hf2 hf3]
    rw [cornersPreserve c _ 1 (c.chY - 1) (c.chZ - 1) (by omega)]
    rw [cornersPreserve c _ 0 (c.chY - 2) (c.chZ - 1) (by omega)]
    rw [cornersPreserve c _ 0 (c.chY - 1) (c.chZ - 2) (by omega)]
  · intro hf1 hf2 hf3
    unfold stepField
    rw [afterCorners_RBBa c _ hx hy hz hf1 hf2 hf3]
    rw [cornersPreserve c _ (c.chX - 2) 0 0 (by omega)]
    rw [cornersPreserve c _ (c.chX - 1) 1 0 (by omega)]
    rw [cornersPreserve c _ (c.chX - 1) 0 1 (by omega)]
  · intro hf1 hf2 hf3
    unfold stepField
    rw [afterCorners_RBF c _ hx hy hz hf1 hf2 hf3]
    rw [cornersPreserve c _ (c.chX - 2) 0 (c.chZ - 1) (by omega)]
    rw [cornersPreserve c _ (c.chX - 1) 1 (c.chZ - 1) (by omega)]
    rw [cornersPreserve c _ (c.chX - 1) 0 (c.chZ - 2) (by omega)]
  · intro hf1 hf2 hf3
    unfold stepField
    rw [afterCorners_RTBa c _ hx hy hz hf1 hf2 hf3]
    rw [cornersPreserve c _ (c.chX - 2) (c.chY - 1) 0 (by omega)]
    rw [cornersPreserve c _ (c.chX - 1) (c.chY - 2) 0 (by omega)]
    rw [cornersPreserve c _ (c.chX - 1) (c.chY - 1) 1 (by omega)]
  · intro hf1 hf2 hf3
    unfold stepField
    rw [afterCorners_RTF c _ hx hy hz hf1 hf2 hf3]
    rw [cornersPreserve c _ (c.chX - 2) (c.chY - 1) (c.chZ - 1) (by omega)]
    rw [cornersPreserve c _ (c.chX - 1) (c.chY - 2) (c.chZ - 1) (by omega)]
    rw [cornersPreserve c _ (c.chX - 1) (c.chY - 1) (c.chZ - 2) (by omega)]

/-- Witness for C7 at the all-neighbours 4×4×4 configuration: the left-bottom
edge equation at k = 1. -/
theorem c7_witness :
    stepField cfgAll halosZero zeroFld zeroFld 0 0 1 =
      2 * stepField cfgAll halosZero zeroFld zeroFld 1 0 1 -
        stepField cfgAll halosZero zeroFld zeroFld 2 0 1 :=
  (c7_edge_corner_completion cfgAll halosZero zeroFld zeroFld
    (by decide) (by decide) (by decide)).1 rfl rfl 1 (by decide) (by decide)

/-- Folding the residual accumulator never decreases it below its starting
value. -/
theorem residFold_ge (T T0 : Fld) (l : List (Nat × Nat × Nat)) (a : ℚ) :
    a ≤ l.foldl
      (fun acc p =>
        if |T p.1 p.2.1 p.2.2 - T0 p.1 p.2.1 p.2.2| > acc then
          |T p.1 p.2.1 p.2.2 - T0 p.1 p.2.1 p.2.2|
        else acc)
      a := by
  induction l generalizing a with
  | nil => exact le_refl a
  | cons x xs ih =>
    rw [List.foldl_cons]
    refine le_trans ?_ (ih _)
    by_cases hc : |T x.1 x.2.1 x.2.2 - T0 x.1 x.2.1 x.2.2| > a
    · rw [if_pos hc]; exact le_of_lt hc
    · rw [if_neg hc]

/-- When current and previous agree on every listed cell, the residual fold
keeps its (non-negative) starting value. -/
theorem residFold_const (T T0 : Fld) (l : List (Nat × Nat × Nat)) (a : ℚ)
    (ha : 0 ≤ a) (hall : ∀ p ∈ l, T p.1 p.2.1 p.2.2 = T0 p.1 p.2.1 p.2.2) :
    l.foldl
      (fun acc p =>
        if |T p.1 p.2.1 p.2.2 - T0 p.1 p.2.1 p.2.2| > acc then
          |T p.1 p.2.1 p.2.2 - T0 p.1 p.2.1 p.2.2|
        else acc)
      a = a := by
  induction l with
  | nil => rfl
  | cons x xs ih =>
    rw [List.foldl_cons]
    have hx : T x.1 x.2.1 x.2.2 = T0 x.1 x.2.1 x.2.2 := hall x (by simp)
    have hz : |T x.1 x.2.1 x.2.2 - T0 x.1 x.2.1 x.2.2| = 0 := by
      rw [hx]; simp
    rw [if_neg (by rw [hz]; exact not_lt.mpr ha)]
    exact ih fun p hp => hall p (by simp [hp])

/-- The constant `dblMin` is strictly positive. -/
theorem dblMin_pos : 0 < dblMin := by
  unfold dblMin
  positivity

/-- The residual accumulator starts at `dblMin`, so the residual is at
least `dblMin`. -/
theorem resid_ge_dblMin (c : Cfg) (T T0 : Fld) : dblMin ≤ resid c T T0 :=
  residFold_ge T T0 (interiorTriples c) dblMin

/-- C10: the computed local residual of every iteration is at least
`std::numeric_limits<double>::min()` (its initialisation value) and hence
never exactly 0, so the iteration-0 guard `res != 0.0` always succeeds and
`norm` is always overwritten with the iteration-0 residual. -/
theorem c10_residual_never_zero (c : Cfg) (T T0 : Fld) :
    dblMin ≤ resid c T T0 ∧ resid c T T0 ≠ 0 ∧
    normAfter0 (resid c T T0) = resid c T T0 := by
  have h1 := resid_ge_dblMin c T T0
  have h0 : (0 : ℚ) < resid c T T0 := lt_of_lt_of_le dblMin_pos h1
  refine ⟨h1, ne_of_gt h0, ?_⟩
  unfold normAfter0
  rw [if_pos (ne_of_gt h0)]

/-- C5 (amended): the residual is always nonnegative (indeed at least
`dblMin` > 0); if it were 0 the fields would agree on the interior
(vacuously, as it never is 0); and when current equals previous at every
strictly interior cell the residual equals `dblMin`, not 0. -/
theorem c5_residual_sign (c : Cfg) (T T0 : Fld) :
    0 ≤ resid c T T0 ∧
    (resid c T T0 = 0 →
      ∀ p ∈ interiorTriples c, T p.1 p.2.1 p.2.2 = T0 p.1 p.2.1 p.2.2) ∧
    ((∀ p ∈ interiorTriples c, T p.1 p.2.1 p.2.2 = T0 p.1 p.2.1 p.2.2) →
      resid c T T0 = dblMin) := by
  have h0 : (0 : ℚ) < resid c T T0 :=
    lt_of_lt_of_le dblMin_pos (resid_ge_dblMin c T T0)
  refine ⟨le_of_lt h0, fun hz => absurd hz (ne_of_gt h0), fun hall => ?_⟩
  unfold resid
  exact residFold_const T T0 (interiorTriples c) dblMin (le_of_lt dblMin_pos) hall

/-- Witness for C5: at the single-process 3×3×3 configuration with equal
fields the residual evaluates to `dblMin`. -/
theorem c5_witness : resid cfgOne zeroFld zeroFld = dblMin :=
  (c5_residual_sign cfgOne zeroFld zeroFld).2.2 fun _ _ => rfl

/-- Counterexample for C5 as stated: with current equal to previous at every
strictly interior cell the residual is `dblMin`, not 0, so "residual = 0
exactly when current equals previous on the interior" fails in the
right-to-left direction. -/
theorem c5_counterexample :
    ¬(resid cfgOne zeroFld zeroFld = 0 ↔
      ∀ p ∈ interiorTriples cfgOne,
        zeroFld p.1 p.2.1 p.2.2 = zeroFld p.1 p.2.1 p.2.2) := by
  intro hiff
  have hz := hiff.mpr fun _ _ => rfl
  have hd : resid cfgOne zeroFld zeroFld = dblMin :=
    residFold_const zeroFld zeroFld (interiorTriples cfgOne) dblMin
      (le_of_lt dblMin_pos) fun _ _ => rfl
  rw [hd] at hz
  exact absurd hz (ne_of_gt dblMin_pos)

/-- Counterexample for C2 as stated: two processes, eps = 1/2, both norms 1;
process 0 has residual 1/4 (its local test holds), process 1 has residual 1
(its local test has never held), yet the MAX-reduced global break condition
is true, so both processes leave the loop. -/
theorem c2_counterexample :
    localBreakAfter false (1/4) 1 (1/2) = true ∧
    localBreakAfter false 1 1 (1/2) = false ∧
    globalBreakCondition
      [localBreakAfter false (1/4) 1 (1/2), localBreakAfter false 1 1 (1/2)] = true := by
  have e1 : localBreakAfter false (1/4) 1 (1/2) = true := by
    norm_num [localBreakAfter]
  have e2 : localBreakAfter false 1 1 (1/2) = false := by
    norm_num [localBreakAfter]
  refine ⟨e1, e2, ?_⟩
  rw [e1, e2]
  rfl

/-- C2 (amended): the MAX reduction over the local break flags is a logical
OR — the globally reduced break condition, observed identically by every
process, is true exactly when at least one process's local break condition
is true, so the loop terminates for all processes as soon as any single
process has observed residual/norm < eps. -/
theorem c2_break_is_logical_or (bs : List Bool) :
    globalBreakCondition bs = true ↔ ∃ b ∈ bs, b = true := by
  have key : ∀ (l : List Bool) (a : Bool),
      l.foldl (fun x y => max x y) a = (a || l.any fun b => b) := by
    intro l
    induction l with
    | nil => intro a; simp
    | cons x xs ih =>
      intro a
      rw [List.foldl_cons, ih]
      cases a <;> cases x <;> simp
  unfold globalBreakCondition
  rw [key bs false]
  simp [List.any_eq_true]

/-- Witness for C2's amended statement: one converged flag among two makes
the reduced break condition true. -/
theorem c2_witness : globalBreakCondition [false, true] = true :=
  (c2_break_is_logical_or [false, true]).mpr ⟨true, by simp, rfl⟩

/-- C3 (code bug): with iteration-0 residuals 1 and 2 on two processes, the
min-reduction agrees on 1, but the convergence test of the second process
divides by its process-local `norm` = 2 (heat3D.cpp:951 reads `norm`, not
the reduced `globalNorm`, which is never used): with a later residual 3/2
and eps = 1 the local divisor declares convergence while the globally
agreed divisor would not. -/
theorem c3_local_norm_used_not_global :
    normAfter0 2 = 2 ∧
    listMin (List.map normAfter0 [1, 2]) = 1 ∧
    localBreakAfter false (3/2) (normAfter0 2) 1 = true ∧
    localBreakAfter false (3/2) (listMin (List.map normAfter0 [1, 2])) 1 = false := by
  have e0 : normAfter0 (2 : ℚ) = 2 := by norm_num [normAfter0]
  have e1 : listMin (List.map normAfter0 [1, 2]) = 1 := by
    have h1 : normAfter0 (1 : ℚ) = 1 := by norm_num [normAfter0]
    simp [listMin, h1, e0]
  refine ⟨e0, e1, ?_, ?_⟩
  · rw [e0]; norm_num [localBreakAfter]
  · rw [e1]; norm_num [localBreakAfter]

/-- Counterexample for C4 as stated: at the single-process 3×3×3
configuration with process y-coordinate 0 and y-spacing 1/2, the cells
(0,1,1), (2,1,1), (1,1,0) and (1,1,2) are interior to four distinct faces
(left, right, back, front) and all carry the ramp value 1/2, which is
neither 0.0 nor 1.0 — so four no-neighbour faces are ramp-valued, not
exactly three; the top face carries 1.0 and the bottom face stays 0.0. -/
theorem c4_counterexample :
    initField cfgOne 0 (1/2) 0 1 1 = 1/2 ∧
    initField cfgOne 0 (1/2) 2 1 1 = 1/2 ∧
    initField cfgOne 0 (1/2) 1 1 0 = 1/2 ∧
    initField cfgOne 0 (1/2) 1 1 2 = 1/2 ∧
    initField cfgOne 0 (1/2) 1 2 1 = 1 ∧
    initField cfgOne 0 (1/2) 1 0 1 = 0 := by
  refine ⟨?_, ?_, ?_, ?_, ?_, ?_⟩ <;>
    norm_num [initField, bcFront, bcBack, bcRight, bcLeft, bcTop, zeroFld, ramp, cfgOne]

/-- C4 (amended): before the loop, boundary values are applied only on
no-neighbour faces: the four faces left, right, back and front (when they
have no neighbour) are fixed at the position-dependent linear ramp, the top
face (when it has no neighbour) is fixed at 1.0 except where a ramp face
overwrites its shared edges, and every remaining cell is 0.0. -/
theorem c4_boundary_faces (c : Cfg) (cy : Nat) (sY : ℚ) (i j k : Nat)
    (hb : i < c.chX ∧ j < c.chY ∧ k < c.chZ) :
    ((c.nbL = false ∧ i = 0) ∨ (c.nbR = false ∧ i = c.chX - 1) ∨
      (c.nbBa = false ∧ k = 0) ∨ (c.nbF = false ∧ k = c.chZ - 1) →
      initField c cy sY i j k = ramp c cy sY j) ∧
    (c.nbT = false → j = c.chY - 1 →
      ¬(c.nbL = false ∧ i = 0) → ¬(c.nbR = false ∧ i = c.chX - 1) →
      ¬(c.nbBa = false ∧ k = 0) → ¬(c.nbF = false ∧ k = c.chZ - 1) →
      initField c cy sY i j k = 1) ∧
    (¬(c.nbT = false ∧ j = c.chY - 1) →
      ¬(c.nbL = false ∧ i = 0) → ¬(c.nbR = false ∧ i = c.chX - 1) →
      ¬(c.nbBa = false ∧ k = 0) → ¬(c.nbF = false ∧ k = c.chZ - 1) →
      initField c cy sY i j k = 0) := by
  refine ⟨?_, ?_, ?_⟩
  · intro hd
    simp only [initField, bcFront, bcBack, bcRight, bcLeft, bcTop, zeroFld]
    rcases hd with ⟨hf, hc⟩ | ⟨hf, hc⟩ | ⟨hf, hc⟩ | ⟨hf, hc⟩
    · split_ifs with h1 h2 h3 h4 h5 <;>
        first
          | rfl
          | exact absurd ⟨hf, hc, hb.2.1, hb.2.2⟩ h4
    · split_ifs with h1 h2 h3 h4 h5 <;>
        first
          | rfl
          | exact absurd ⟨hf, hc, hb.2.1, hb.2.2⟩ h3
    · split_ifs with h1 h2 h3 h4 h5 <;>
        first
          | rfl
          | exact absurd ⟨hf, hc, hb.1, hb.2.1⟩ h2
    · split_ifs with h1 h2 h3 h4 h5 <;>
        first
          | rfl
          | exact absurd ⟨hf, hc, hb.1, hb.2.1⟩ h1
  · intro hT hj eL eR eBa eF
    simp only [initField, bcFront, bcBack, bcRight, bcLeft, bcTop, zeroFld]
    split_ifs with h1 h2 h3 h4 h5
    · exact absurd ⟨h1.1, h1.2.1⟩ eF
    · exact absurd ⟨h2.1, h2.2.1⟩ eBa
    · exact absurd ⟨h3.1, h3.2.1⟩ eR
    · exact absurd ⟨h4.1, h4.2.1⟩ eL
    · rfl
    · exact absurd ⟨hT, hj, hb.1, hb.2.2⟩ h5
  · intro eT eL eR eBa eF
    simp only [initField, bcFront, bcBack, bcRight, bcLeft, bcTop, zeroFld]
    split_ifs with h1 h2 h3 h4 h5
    · exact absurd ⟨h1.1, h1.2.1⟩ eF
    · exact absurd ⟨h2.1, h2.2.1⟩ eBa
    · exact absurd ⟨h3.1, h3.2.1⟩ eR
    · exact absurd ⟨h4.1, h4.2.1⟩ eL
    · exact absurd ⟨h5.1, h5.2.1⟩ eT
    · rfl

/-- Witness for C4's amended statement: the left face of the single-process
block carries the ramp value. -/
theorem c4_witness :
    initField cfgOne 0 (1/2) 0 1 1 = ramp cfgOne 0 (1/2) 1 :=
  (c4_boundary_faces cfgOne 0 (1/2) 0 1 1 (by decide)).1 (Or.inl ⟨rfl, rfl⟩)

/-- C6: setup fails (the assert aborts, before the field is allocated and
before any time-loop work) exactly when some axis violates
`(numCells - 1) % dimension3D == 0`; when all three axes satisfy it, setup
proceeds and the field is allocated with the partition chunk sizes
`(numCells - 1) / dimension3D + 1`. -/
theorem c6_divisibility_gates_setup (nX nY nZ dX dY dZ : Nat) :
    (setupPartition nX nY nZ dX dY dZ = none ↔
      ¬((nX - 1) % dX = 0 ∧ (nY - 1) % dY = 0 ∧ (nZ - 1) % dZ = 0)) ∧
    ((nX - 1) % dX = 0 → (nY - 1) % dY = 0 → (nZ - 1) % dZ = 0 →
      setupPartition nX nY nZ dX dY dZ =
        some ((nX - 1) / dX + 1, (nY - 1) / dY + 1, (nZ - 1) / dZ + 1)) := by
  constructor
  · unfold setupPartition checkDivisible
    by_cases h1 : (nX - 1) % dX = 0 <;> by_cases h2 : (nY - 1) % dY = 0 <;>
      by_cases h3 : (nZ - 1) % dZ = 0 <;> simp [h1, h2, h3]
  · intro h1 h2 h3
    unfold setupPartition checkDivisible
    rw [if_pos h1, if_pos h2, if_pos h3]
    rfl

/-- Witness for C6: the 5×5×5 grid on a 2×2×2 process grid passes setup
with chunk 3×3×3, while 6 cells in x on 2 processes abort it. -/
theorem c6_witness :
    setupPartition 5 5 5 2 2 2 = some (3, 3, 3) ∧
    setupPartition 6 5 5 2 2 2 = none := by
  constructor
  · exact (c6_divisibility_gates_setup 5 5 5 2 2 2).2 (by decide) (by decide) (by decide)
  · exact (c6_divisibility_gates_setup 6 5 5 2 2 2).1.mpr (by decide)

/-- Element at flat position a*nK + b of a pack loop: the nested loops
enumerate the outer transverse index from s and the inner transverse index
from 1, inner index fastest. -/
theorem packGet (f : Nat → Nat → ℚ) (nK : Nat) :
    ∀ (a s nJ b : Nat), a < nJ → b < nK →
      ((List.range' s nJ).flatMap fun j =>
        (List.range' 1 nK).map fun k => f j k)[a * nK + b]? = some (f (s + a) (1 + b)) := by
  intro a
  induction a with
  | zero =>
    intro s nJ b ha hb
    obtain ⟨m, rfl⟩ : ∃ m, nJ = m + 1 := ⟨nJ - 1, by omega⟩
    have e : 0 * nK + b = b := by omega
    rw [e, List.range'_succ, List.flatMap_cons, List.getElem?_append,
      if_pos (by simpa [List.length_map, List.length_range'] using hb),
      List.getElem?_map, List.getElem?_range' 1 1 hb]
    simp
  | succ a ih =>
    intro s nJ b ha hb
    obtain ⟨m, rfl⟩ : ∃ m, nJ = m + 1 := ⟨nJ - 1, by omega⟩
    have hlen : ((List.range' 1 nK).map fun k => f s k).length = nK := by
      simp [List.length_map, List.length_range']
    rw [List.range'_succ, List.flatMap_cons,
      List.getElem?_append_right (by rw [hlen, Nat.succ_mul]; omega)]
    rw [hlen]
    have e2 : (a + 1) * nK + b - nK = a * nK + b := by rw [Nat.succ_mul]; omega
    have e3 : s + 1 + a = s + (a + 1) := by omega
    rw [e2, ← e3]
    exact ih (s + 1) m b (by omega) hb

/-- C8: for each direction with a real neighbour, the send buffer holds, in
(outer, inner) transverse order with the inner index fastest, exactly the
values of the previous-level copy T0 on the single interior layer adjacent
to that face, at transverse indices 1, ..., chunck-2 on both transverse
axes (the process's own edge and corner cells excluded). -/
theorem c8_pack_layout (c : Cfg) (T0 : Fld) (a b : Nat) :
    (c.nbL = true → a < c.chY - 2 → b < c.chZ - 2 →
      (sendLeft c T0)[a * (c.chZ - 2) + b]? = some (T0 1 (1 + a) (1 + b))) ∧
    (c.nbR = true → a < c.chY - 2 → b < c.chZ - 2 →
      (sendRight c T0)[a * (c.chZ - 2) + b]? = some (T0 (c.chX - 2) (1 + a) (1 + b))) ∧
    (c.nbB = true → a < c.chX - 2 → b < c.chZ - 2 →
      (sendBottom c T0)[a * (c.chZ - 2) + b]? = some (T0 (1 + a) 1 (1 + b))) ∧
    (c.nbT = true → a < c.chX - 2 → b < c.chZ - 2 →
      (sendTop c T0)[a * (c.chZ - 2) + b]? = some (T0 (1 + a) (c.chY - 2) (1 + b))) ∧
    (c.nbBa = true → a < c.chX - 2 → b < c.chY - 2 →
      (sendBack c T0)[a * (c.chY - 2) + b]? = some (T0 (1 + a) (1 + b) 1)) ∧
    (c.nbF = true → a < c.chX - 2 → b < c.chY - 2 →
      (sendFront c T0)[a * (c.chY - 2) + b]? = some (T0 (1 + a) (1 + b) (c.chZ - 2))) := by
  refine ⟨?_, ?_, ?_, ?_, ?_, ?_⟩ <;> intro hf ha hb
  · unfold sendLeft
    rw [if_pos hf]
    exact packGet (fun j k => T0 1 j k) (c.chZ - 2) a 1 (c.chY - 2) b ha hb
  · unfold sendRight
    rw [if_pos hf]
    exact packGet (fun j k => T0 (c.chX - 2) j k) (c.chZ - 2) a 1 (c.chY - 2) b ha hb
  · unfold sendBottom
    rw [if_pos hf]
    exact packGet (fun i k => T0 i 1 k) (c.chZ - 2) a 1 (c.chX - 2) b ha hb
  · unfold sendTop
    rw [if_pos hf]
    exact packGet (fun i k => T0 i (c.chY - 2) k) (c.chZ - 2) a 1 (c.chX - 2) b ha hb
  · unfold sendBack
    rw [if_pos hf]
    exact packGet (fun i j => T0 i j 1) (c.chY - 2) a 1 (c.chX - 2) b ha hb
  · unfold sendFront
    rw [if_pos hf]
    exact packGet (fun i j => T0 i j (c.chZ - 2)) (c.chY - 2) a 1 (c.chX - 2) b ha hb

/-- Witness for C8: the first entry of the left send buffer at the
all-neighbours 4×4×4 configuration is T0[1][1][1]. -/
theorem c8_witness :
    (sendLeft cfgAll zeroFld)[(0 : Nat)]? = some (zeroFld 1 1 1) :=
  (c8_pack_layout cfgAll zeroFld 0 0).1 rfl (by decide) (by decide)
